import Mathlib

/-!
# Local-Food-Waste: verification of the query/filter and mutation layers

Shallow embedding of the repository's two source files:

* `queries.py` — the filter-composition utility (`_in_clause`, `_and_join`)
  and the report/KPI query set.  The utility is embedded verbatim at the
  string level; each SQL query is embedded by its relational-algebra
  denotation over an explicit in-memory store (the database engine is an
  external collaborator, so each `SELECT` is translated to the corresponding
  list computation, documented next to each definition).
* `app.py` — the CRUD mutation operations of the four entities (the
  Streamlit widgets are presentation; the embedded part is the validation
  logic and the issued statements).

Parameter dictionaries are embedded as total functions `String → List String`
(a missing key maps to `[]`); SQL `NULL` from a nullable aggregate is
`Option`.
-/

namespace FoodWaste

/-! ## Filter-composition utility (queries.py, `_in_clause` / `_and_join`) -/

/-- The bound-parameter mapping built up by `_in_clause` (a Python dict
`name ↦ tuple(values)`; absent keys are `[]`). -/
def Params : Type := String → List String

/-- The initial empty `params = {}` dict. -/
def emptyParams : Params := fun _ => []

/-- `queries.py:_in_clause`: returns the snippet `col IN %(name)s` and the
dict updated with `params[name] = tuple(values)`; if `values` is empty it
returns `''` and leaves the dict unchanged. -/
def in_clause (col : String) (values : List String) (name : String)
    (params : Params) : String × Params :=
  if values = [] then
    ("", params)
  else
    (col ++ " IN %(" ++ name ++ ")s",
     fun n => if n = name then values else params n)

/-- `queries.py:_and_join`: drops empty condition strings; returns `''` when
none remain, otherwise `" WHERE "` followed by the `" AND "`-join. -/
def and_join (conditions : List String) : String :=
  let conds := conditions.filter (fun c => c ≠ "")
  if conds = [] then "" else " WHERE " ++ String.intercalate " AND " conds

/-- The filter-composition pattern used by the queries, instantiated at the
five filter dimensions (city, provider type, food type, meal type, claim
status) with their bound-parameter names: a fresh `params = {}`, one
`_in_clause` per dimension, then `_and_join` (as in
`total_food_quantity_filtered` plus the claim-status dimension of
`count_claims`). -/
def fiveDimWhere (cities ptypes ftypes mtypes cstats : List String) :
    String × Params :=
  let c1 := in_clause "City" cities "cities" emptyParams
  let c2 := in_clause "Type" ptypes "ptypes" c1.2
  let c3 := in_clause "Food_Type" ftypes "ftypes" c2.2
  let c4 := in_clause "Meal_Type" mtypes "mtypes" c3.2
  let c5 := in_clause "Status" cstats "cstats" c4.2
  (and_join [c1.1, c2.1, c3.1, c4.1, c5.1], c5.2)

/-! ## SQL-engine reading of a generated fragment

The database engine parses the fragment text and evaluates it on each row
with the bound parameters.  We model that reading faithfully: a character
level splitter (fuel-based so that it computes by kernel reduction), a
parser/evaluator for one `col IN %(name)s` condition, and an evaluator for
a whole `'' | " WHERE c1 AND … AND cn"` fragment. -/

/-- One-pass list splitter on a (non-empty) separator, with fuel; reversing
accumulator.  `fuel ≥ length` input makes it total on the input. -/
def splitChunks (sep : List Char) : Nat → List Char → List Char →
    List (List Char)
  | 0, acc, l => [acc.reverse ++ l]
  | _ + 1, acc, [] => [acc.reverse]
  | n + 1, acc, c :: cs =>
    if sep.isPrefixOf (c :: cs) then
      acc.reverse :: splitChunks sep n [] ((c :: cs).drop sep.length)
    else
      splitChunks sep n (c :: acc) cs

/-- Split a character list on a separator. -/
def splitOnChars (sep l : List Char) : List (List Char) :=
  splitChunks sep l.length [] l

/-- Evaluate one parsed SQL condition of the shape `col IN %(name)s` on a
row (a column valuation) under the bound parameters: the row's `col` value
must be a member of the tuple bound to `name`.  Anything not of that shape
evaluates to `false`. -/
def condSat (row : String → String) (params : Params) (c : List Char) :
    Bool :=
  match splitOnChars " IN %(".toList c with
  | [col, rest] =>
    match splitOnChars ")s".toList rest with
    | [name, []] => decide (row (String.mk col) ∈ params (String.mk name))
    | _ => false
  | _ => false

/-- Evaluate a generated `WHERE` fragment on a row under the bound
parameters: the empty fragment holds of every row; otherwise the fragment
must be `" WHERE "` followed by an `" AND "`-conjunction of `IN`
conditions, each of which must hold. -/
def fragSat (row : String → String) (params : Params) (frag : String) :
    Bool :=
  if frag = "" then
    true
  else if " WHERE ".toList.isPrefixOf frag.toList then
    (splitOnChars " AND ".toList (frag.toList.drop 7)).all
      (condSat row params)
  else
    false

/-! ## Spec-side companion definitions for the filter utility

`fiveDims` packages the five filter dimensions (claim-status column as in
`count_claims`, the others as in the provider/food queries) as
(column, values, parameter-name) triples.  `specFragment` renders, per the
spec's words, "the conjunction of one `column IN (...)` clause per
non-empty dimension" (with no `WHERE` at all when every dimension is
empty); `expectedSat` is the spec's satisfaction condition: for every
non-empty dimension the row's column value is a member of the set. -/

/-- The five filter dimensions as (column, values, parameter-name). -/
def fiveDims (cities ptypes ftypes mtypes cstats : List String) :
    List (String × List String × String) :=
  [("City", cities, "cities"), ("Type", ptypes, "ptypes"),
   ("Food_Type", ftypes, "ftypes"), ("Meal_Type", mtypes, "mtypes"),
   ("Status", cstats, "cstats")]

/-- One rendered `IN` clause per non-empty dimension, in order. -/
def activeClauses (dims : List (String × List String × String)) :
    List String :=
  (dims.filter (fun d => d.2.1 ≠ [])).map
    (fun d => d.1 ++ " IN %(" ++ d.2.2 ++ ")s")

/-- The fragment the spec describes: empty when no dimension is active,
otherwise `" WHERE "` plus the `" AND "`-conjunction of the active
clauses. -/
def specFragment (dims : List (String × List String × String)) : String :=
  if activeClauses dims = [] then ""
  else " WHERE " ++ String.intercalate " AND " (activeClauses dims)

/-- The spec's row condition: for every non-empty dimension, the row's
column value is a member of that dimension's value set. -/
def expectedSat (row : String → String)
    (dims : List (String × List String × String)) : Bool :=
  dims.all (fun d =>
    match d.2.1 with
    | [] => true
    | _ :: _ => decide (row d.1 ∈ d.2.1))

/-- The generated query text as a function of the emptiness flags alone
(`true` = the dimension is non-empty and contributes its clause). -/
def fragOfFlags (b1 b2 b3 b4 b5 : Bool) : String :=
  and_join [cond b1 "City IN %(cities)s" "",
            cond b2 "Type IN %(ptypes)s" "",
            cond b3 "Food_Type IN %(ftypes)s" "",
            cond b4 "Meal_Type IN %(mtypes)s" "",
            cond b5 "Status IN %(cstats)s" ""]

/-! ## Data model (§3 of the spec; columns as selected in app.py) -/

/-- A row of the `providers` table. -/
structure Provider where
  Provider_ID : Int
  Name : String
  «Type» : String
  City : String
  Contact : String
  Address : String
  deriving DecidableEq, Repr, Inhabited

/-- A row of the `receivers` table. -/
structure Receiver where
  Receiver_ID : Int
  Name : String
  «Type» : String
  City : String
  Contact : String
  deriving DecidableEq, Repr, Inhabited

/-- A row of the `food_listings` table. -/
structure FoodListing where
  Food_ID : Int
  Food_Name : String
  Quantity : Int
  Expiry_Date : String
  Provider_ID : Int
  Provider_Type : String
  Location : String
  Food_Type : String
  Meal_Type : String
  deriving DecidableEq, Repr, Inhabited

/-- A row of the `claims` table. -/
structure Claim where
  Claim_ID : Int
  Food_ID : Int
  Receiver_ID : Int
  Status : String
  Timestamp : String
  deriving DecidableEq, Repr, Inhabited

/-- The relational store: the four tables. -/
structure Store where
  providers : List Provider
  receivers : List Receiver
  food_listings : List FoodListing
  claims : List Claim
  deriving DecidableEq, Repr, Inhabited

/-- The store with all four tables empty. -/
def emptyStore : Store := ⟨[], [], [], []⟩

/-! ## Relational-algebra denotations of the SQL queries

The database engine is an external collaborator: each `SELECT` of
`queries.py` is embedded by its list-level denotation.  An optional
`IN`-filter dimension (built by `_in_clause`/`_and_join`, whose row
semantics is established independently by the fragment theorems) denotes
`dimSat`: absent (empty) dimensions do not constrain the row, non-empty
ones require membership.  `JOIN` denotes the flat product of matching
rows, `GROUP BY` groups by key in first-occurrence order, `ORDER BY c
DESC` is a sort by the aggregate descending (SQL leaves tie order
unspecified; a stable sort is one such order), `COUNT` is row count,
`SUM`/`AVG` fold the column (a `SUM` without `COALESCE` is `NULL`, i.e.
`none`, when there are no rows). -/

/-- Denotation of one optional filter dimension on a row column value. -/
def dimSat (values : List String) (x : String) : Bool :=
  decide (values = []) || decide (x ∈ values)

/-- `GROUP BY key` with aggregate `agg` over each group. -/
def groupAgg {α K V : Type} [DecidableEq K] (rows : List α) (key : α → K)
    (agg : List α → V) : List (K × V) :=
  (rows.map key).dedup.map
    (fun k => (k, agg (rows.filter (fun r => decide (key r = k)))))

/-- `ORDER BY <aggregate column> DESC`. -/
def orderByValDesc {K V : Type} [LinearOrder V] (l : List (K × V)) :
    List (K × V) :=
  l.mergeSort (fun a b => decide (b.2 ≤ a.2))

/-- `claims c JOIN receivers r ON c.Receiver_ID = r.Receiver_ID`. -/
def joinClaimsReceivers (s : Store) : List (Claim × Receiver) :=
  s.claims.flatMap (fun c =>
    (s.receivers.filter (fun r => decide (r.Receiver_ID = c.Receiver_ID))).map
      (fun r => (c, r)))

/-- `receivers r JOIN claims c ON r.Receiver_ID = c.Receiver_ID`. -/
def joinReceiversClaims (s : Store) : List (Receiver × Claim) :=
  s.receivers.flatMap (fun r =>
    (s.claims.filter (fun c => decide (c.Receiver_ID = r.Receiver_ID))).map
      (fun c => (r, c)))

/-- `food_listings f JOIN claims c ON f.Food_ID = c.Food_ID
JOIN receivers r ON c.Receiver_ID = r.Receiver_ID`. -/
def joinFoodClaimsReceivers (s : Store) :
    List (FoodListing × Claim × Receiver) :=
  s.food_listings.flatMap (fun f =>
    (s.claims.filter (fun c => decide (c.Food_ID = f.Food_ID))).flatMap
      (fun c =>
        (s.receivers.filter
          (fun r => decide (r.Receiver_ID = c.Receiver_ID))).map
          (fun r => (f, c, r))))

/-- `receivers r JOIN claims c ON r.Receiver_ID = c.Receiver_ID
JOIN food_listings f ON c.Food_ID = f.Food_ID`. -/
def joinReceiversClaimsFood (s : Store) :
    List (Receiver × Claim × FoodListing) :=
  s.receivers.flatMap (fun r =>
    (s.claims.filter (fun c => decide (c.Receiver_ID = r.Receiver_ID))).flatMap
      (fun c =>
        (s.food_listings.filter (fun f => decide (f.Food_ID = c.Food_ID))).map
          (fun f => (r, c, f))))

/-- `providers p JOIN food_listings f ON p.Provider_ID = f.Provider_ID`. -/
def joinProvidersFood (s : Store) : List (Provider × FoodListing) :=
  s.providers.flatMap (fun p =>
    (s.food_listings.filter
      (fun f => decide (f.Provider_ID = p.Provider_ID))).map
      (fun f => (p, f)))

/-- `providers p JOIN food_listings f ON p.Provider_ID = f.Provider_ID
JOIN claims c ON f.Food_ID = c.Food_ID`. -/
def joinProvidersFoodClaims (s : Store) :
    List (Provider × FoodListing × Claim) :=
  s.providers.flatMap (fun p =>
    (s.food_listings.filter
      (fun f => decide (f.Provider_ID = p.Provider_ID))).flatMap
      (fun f =>
        (s.claims.filter (fun c => decide (c.Food_ID = f.Food_ID))).map
          (fun c => (p, f, c))))

/-- `count_providers`: `SELECT COUNT(*) FROM providers` with optional
`City`/`Type` filters. -/
def count_providers (s : Store) (cities ptypes : List String) : Nat :=
  (s.providers.filter
    (fun p => dimSat cities p.City && dimSat ptypes p.«Type»)).length

/-- `count_receivers`: `SELECT COUNT(*) FROM receivers` with optional
`City` filter. -/
def count_receivers (s : Store) (cities : List String) : Nat :=
  (s.receivers.filter (fun r => dimSat cities r.City)).length

/-- `count_claims`: `SELECT COUNT(*) FROM claims c` — the
`JOIN receivers r` is added only when a city filter is given, in which
case the filter binds `r.City`; claim statuses filter `c.Status`. -/
def count_claims (s : Store) (cities cstats : List String) : Nat :=
  if cities = [] then
    (s.claims.filter (fun c => dimSat cstats c.Status)).length
  else
    ((joinClaimsReceivers s).filter
      (fun cr => decide (cr.2.City ∈ cities) && dimSat cstats cr.1.Status)).length

/-- `total_food_quantity_filtered`:
`SELECT COALESCE(SUM(Quantity), 0) FROM food_listings` with the four
optional filters (`Location`, `Provider_Type`, `Food_Type`, `Meal_Type`);
the `COALESCE` makes the no-row result `0`. -/
def total_food_quantity_filtered (s : Store)
    (cities ptypes ftypes mtypes : List String) : Int :=
  ((s.food_listings.filter
    (fun f => dimSat cities f.Location && dimSat ptypes f.Provider_Type &&
      dimSat ftypes f.Food_Type && dimSat mtypes f.Meal_Type)).map
    (fun f => f.Quantity)).sum

/-- `total_food_quantity` (unfiltered, "kept for compatibility"):
`SELECT SUM(Quantity) AS Total_Quantity FROM food_listings` — no
`COALESCE`, so the SQL result is `NULL` (`none`) when the table is
empty. -/
def total_food_quantity (s : Store) : Option Int :=
  match s.food_listings with
  | [] => none
  | _ => some ((s.food_listings.map (fun f => f.Quantity)).sum)

/-- `providers_per_city`: `SELECT City, COUNT(*) FROM providers … GROUP BY
City` with optional `City`/`Type` filters (no `ORDER BY`). -/
def providers_per_city (s : Store) (cities ptypes : List String) :
    List (String × Nat) :=
  groupAgg
    (s.providers.filter
      (fun p => dimSat cities p.City && dimSat ptypes p.«Type»))
    (fun p => p.City) List.length

/-- `receivers_per_city`: `SELECT City, COUNT(*) FROM receivers … GROUP BY
City` with optional `City` filter. -/
def receivers_per_city (s : Store) (cities : List String) :
    List (String × Nat) :=
  groupAgg (s.receivers.filter (fun r => dimSat cities r.City))
    (fun r => r.City) List.length

/-- `top_provider_types`: `SELECT Type, COUNT(*) FROM providers … GROUP BY
Type ORDER BY Contribution_Count DESC`, city filter on `providers.City`. -/
def top_provider_types (s : Store) (cities : List String) :
    List (String × Nat) :=
  orderByValDesc
    (groupAgg (s.providers.filter (fun p => dimSat cities p.City))
      (fun p => p.«Type») List.length)

/-- `provider_contacts`: `SELECT Name, City, Contact FROM providers` with
optional `City` filter. -/
def provider_contacts (s : Store) (cities : List String) :
    List (String × String × String) :=
  (s.providers.filter (fun p => dimSat cities p.City)).map
    (fun p => (p.Name, p.City, p.Contact))

/-- `top_receivers`: `SELECT r.Name, r.City, COUNT(c.Claim_ID) FROM
receivers r JOIN claims c … GROUP BY r.Name, r.City ORDER BY Total_Claims
DESC`; city filter binds `r.City`, status filter binds `c.Status`. -/
def top_receivers (s : Store) (cities cstats : List String) :
    List ((String × String) × Nat) :=
  orderByValDesc
    (groupAgg
      ((joinReceiversClaims s).filter
        (fun rc => dimSat cities rc.1.City && dimSat cstats rc.2.Status))
      (fun rc => (rc.1.Name, rc.1.City)) List.length)

/-- `city_highest_listings`: `SELECT Location, COUNT(*) FROM food_listings
… GROUP BY Location ORDER BY Listings DESC` with the four optional food
filters. -/
def city_highest_listings (s : Store)
    (cities ptypes ftypes mtypes : List String) : List (String × Nat) :=
  orderByValDesc
    (groupAgg
      (s.food_listings.filter
        (fun f => dimSat cities f.Location && dimSat ptypes f.Provider_Type &&
          dimSat ftypes f.Food_Type && dimSat mtypes f.Meal_Type))
      (fun f => f.Location) List.length)

/-- `common_food_types`: `SELECT Food_Type, COUNT(*) FROM food_listings …
GROUP BY Food_Type ORDER BY Count DESC`, city filter on `Location`. -/
def common_food_types (s : Store) (cities : List String) :
    List (String × Nat) :=
  orderByValDesc
    (groupAgg (s.food_listings.filter (fun f => dimSat cities f.Location))
      (fun f => f.Food_Type) List.length)

/-- `claims_per_food`: `SELECT f.Food_Name, COUNT(c.Claim_ID) FROM
food_listings f JOIN claims c JOIN receivers r … GROUP BY f.Food_Name
ORDER BY Claim_Count DESC` (both joins are unconditional); city filter
binds `r.City`, status filter binds `c.Status`. -/
def claims_per_food (s : Store) (cities cstats : List String) :
    List (String × Nat) :=
  orderByValDesc
    (groupAgg
      ((joinFoodClaimsReceivers s).filter
        (fun x => dimSat cities x.2.2.City && dimSat cstats x.2.1.Status))
      (fun x => x.1.Food_Name) List.length)

/-- `top_providers_successful_claims`: `SELECT p.Name, COUNT(c.Claim_ID)
FROM providers p JOIN food_listings f JOIN claims c WHERE
c.Status = 'Completed' [AND p.City IN …] GROUP BY p.Name ORDER BY
Successful_Claims DESC` — the `Status = 'Completed'` condition is always
present and the city filter binds the provider's `p.City` (the receivers
table is not referenced at all). -/
def top_providers_successful_claims (s : Store) (cities : List String) :
    List (String × Nat) :=
  orderByValDesc
    (groupAgg
      ((joinProvidersFoodClaims s).filter
        (fun x => decide (x.2.2.Status = "Completed") && dimSat cities x.1.City))
      (fun x => x.1.Name) List.length)

/-- `claim_status_distribution`: `SELECT c.Status, COUNT(*) FROM claims c
… GROUP BY c.Status` — the `JOIN receivers` is added only when a city
filter is given (binding `r.City`); no `ORDER BY`. -/
def claim_status_distribution (s : Store) (cities : List String) :
    List (String × Nat) :=
  if cities = [] then
    groupAgg s.claims (fun c => c.Status) List.length
  else
    groupAgg
      ((joinClaimsReceivers s).filter (fun cr => decide (cr.2.City ∈ cities)))
      (fun cr => cr.1.Status) List.length

/-- `avg_quantity_per_receiver`: `SELECT r.Name, AVG(f.Quantity) FROM
receivers r JOIN claims c JOIN food_listings f … GROUP BY r.Name ORDER BY
Avg_Quantity DESC`; city filter binds `r.City`. -/
def avg_quantity_per_receiver (s : Store) (cities : List String) :
    List (String × ℚ) :=
  orderByValDesc
    (groupAgg
      ((joinReceiversClaimsFood s).filter
        (fun x => dimSat cities x.1.City))
      (fun x => x.1.Name)
      (fun rows => (rows.map (fun x => (x.2.2.Quantity : ℚ))).sum / rows.length))

/-- `most_claimed_meal_type`: `SELECT f.Meal_Type, COUNT(c.Claim_ID) FROM
food_listings f JOIN claims c JOIN receivers r … GROUP BY f.Meal_Type
ORDER BY Claim_Count DESC`; city filter binds `r.City`. -/
def most_claimed_meal_type (s : Store) (cities : List String) :
    List (String × Nat) :=
  orderByValDesc
    (groupAgg
      ((joinFoodClaimsReceivers s).filter (fun x => dimSat cities x.2.2.City))
      (fun x => x.1.Meal_Type) List.length)

/-- `total_quantity_per_provider`: `SELECT p.Name, SUM(f.Quantity) FROM
providers p JOIN food_listings f … GROUP BY p.Name ORDER BY Total_Quantity
DESC`; city filter binds `p.City`. -/
def total_quantity_per_provider (s : Store) (cities : List String) :
    List (String × Int) :=
  orderByValDesc
    (groupAgg
      ((joinProvidersFood s).filter (fun x => dimSat cities x.1.City))
      (fun x => x.1.Name)
      (fun rows => (rows.map (fun x => x.2.Quantity)).sum))

/-- `cities_with_most_claims`: `SELECT r.City, COUNT(c.Claim_ID) FROM
receivers r JOIN claims c … GROUP BY r.City ORDER BY Claim_Count DESC`;
city filter binds `r.City` (self-narrowing). -/
def cities_with_most_claims (s : Store) (cities : List String) :
    List (String × Nat) :=
  orderByValDesc
    (groupAgg
      ((joinReceiversClaims s).filter (fun rc => dimSat cities rc.1.City))
      (fun rc => rc.1.City) List.length)

/-! ## Entity mutation operations (app.py, CRUD tab)

Each `Add` handler validates client-side (against the `providers_df` /
`food_df` / `receivers_df` snapshots loaded at page start, not a fresh
query), computes `next_id` for providers/receivers/claims via
`SELECT COALESCE(MAX(<id>),0)+1`, and then issues the `INSERT`.  A
rejected form is an `Except.error` (no statement issued); a successful
one is `Except.ok` with the store after the insert (and the assigned id
where the handler assigns one).  `pyStrip` embeds Python's
`.strip()`. -/

/-- Python's `str.strip()`: drop leading and trailing whitespace
(embedded at character level so that it computes by kernel reduction). -/
def pyStrip (s : String) : String :=
  ⟨((s.data.dropWhile Char.isWhitespace).reverse.dropWhile
      Char.isWhitespace).reverse⟩

/-- `SELECT COALESCE(MAX(xs),0)`: the maximum of the column, or `0` when
there are no rows. -/
def sqlMaxOr0 (ids : List Int) : Int :=
  match ids.max? with
  | none => 0
  | some m => m

/-- The column list of the `INSERT INTO providers` statement. -/
def providerInsertColumns : List String :=
  ["Provider_ID", "Name", "Type", "Address", "City", "Contact"]

/-- The column list of the `INSERT INTO receivers` statement. -/
def receiverInsertColumns : List String :=
  ["Receiver_ID", "Name", "Type", "City", "Contact"]

/-- The column list of the `INSERT INTO food_listings` statement — note
that it has no `Food_ID`: the key is left to the database. -/
def foodInsertColumns : List String :=
  ["Food_Name", "Quantity", "Expiry_Date", "Provider_ID", "Provider_Type",
   "Location", "Food_Type", "Meal_Type"]

/-- The column list of the `INSERT INTO claims` statement. -/
def claimInsertColumns : List String :=
  ["Claim_ID", "Food_ID", "Receiver_ID", "Status", "Timestamp"]

/-- Providers → Add: reject when the stripped name or city is empty,
otherwise compute `next_id = COALESCE(MAX(Provider_ID),0)+1` and insert
`(next_id, name, type, address, city, contact)` with the string fields
stripped. -/
def addProvider (s : Store) (name ptype address city contact : String) :
    Except String (Store × Int) :=
  if (pyStrip name) = "" || (pyStrip city) = "" then
    .error "Name and City cannot be empty."
  else
    let next_id := sqlMaxOr0 (s.providers.map (fun p => p.Provider_ID)) + 1
    .ok ({ s with providers := s.providers ++
            [⟨next_id, (pyStrip name), ptype, (pyStrip city), (pyStrip contact),
              (pyStrip address)⟩] },
         next_id)

/-- Receivers → Add: reject when the stripped name or city is empty,
otherwise compute `next_id = COALESCE(MAX(Receiver_ID),0)+1` and insert. -/
def addReceiver (s : Store) (name rtype city contact : String) :
    Except String (Store × Int) :=
  if (pyStrip name) = "" || (pyStrip city) = "" then
    .error "Name and City cannot be empty."
  else
    let next_id := sqlMaxOr0 (s.receivers.map (fun r => r.Receiver_ID)) + 1
    .ok ({ s with receivers := s.receivers ++
            [⟨next_id, (pyStrip name), rtype, (pyStrip city), (pyStrip contact)⟩] },
         next_id)

/-- The parameter tuple of the food-listing `INSERT` (no `Food_ID`). -/
structure FoodInsert where
  Food_Name : String
  Quantity : Int
  Expiry_Date : String
  Provider_ID : Int
  Provider_Type : String
  Location : String
  Food_Type : String
  Meal_Type : String
  deriving DecidableEq, Repr, Inhabited

/-- Food Listings → Add: reject when the given `Provider_ID` is not a
member of the provider snapshot (`providers_df`, loaded at page start —
not a fresh query of the store), then reject when the stripped food name
or location is empty; otherwise issue the `INSERT` (whose parameters are
returned; it contains no `Food_ID`). -/
def addFoodListing (providerSnapshot : List Int) (food_name : String)
    (qty : Int) (expiry : String) (provider_id : Int)
    (location provider_type food_type meal_type : String) :
    Except String FoodInsert :=
  if provider_id ∉ providerSnapshot then
    .error "Invalid Provider ID (must exist in providers)."
  else if (pyStrip food_name) = "" || (pyStrip location) = "" then
    .error "Food Name and Location cannot be empty."
  else
    .ok ⟨(pyStrip food_name), qty, expiry, provider_id, provider_type,
         (pyStrip location), food_type, meal_type⟩

/-- Claims → Add: reject when `Food_ID` is not in the food snapshot,
then when `Receiver_ID` is not in the receiver snapshot; otherwise
compute `next_id = COALESCE(MAX(Claim_ID),0)+1` and insert. -/
def addClaim (foodSnapshot receiverSnapshot : List Int) (s : Store)
    (food_id receiver_id : Int) (status timestamp : String) :
    Except String (Store × Int) :=
  if food_id ∉ foodSnapshot then
    .error "Invalid Food_ID (must exist in Food Listings)."
  else if receiver_id ∉ receiverSnapshot then
    .error "Invalid Receiver_ID (must exist in Receivers)."
  else
    let next_id := sqlMaxOr0 (s.claims.map (fun c => c.Claim_ID)) + 1
    .ok ({ s with claims := s.claims ++
            [⟨next_id, food_id, receiver_id, status, timestamp⟩] },
         next_id)

/-- Claims → Update: `UPDATE claims SET Status=%s WHERE Claim_ID=%s`
(no validation; a non-matching id updates zero rows). -/
def updateClaimStatus (s : Store) (cid : Int) (new_status : String) :
    Store :=
  { s with claims :=
      s.claims.map (fun c =>
        if c.Claim_ID = cid then { c with Status := new_status } else c) }

/-- app.py:26-33 `load_table` is decorated `@st.cache_data`: a call whose
query text was already executed in this server process returns the
memoized result without issuing any query; only a cold call reads the
store.  For the `SELECT COALESCE(MAX(Provider_ID),0)+1` next-id query,
`cache` is the memoized value for that query text (`none` = not yet
cached); the result is the value obtained and the cache afterwards. -/
def load_table_next_id (cache : Option Int) (ids : List Int) :
    Int × Option Int :=
  match cache with
  | some v => (v, some v)
  | none => (sqlMaxOr0 ids + 1, some (sqlMaxOr0 ids + 1))

/-- Providers → Add with the memoization of `load_table` made explicit:
the next id comes from `load_table_next_id`, so a warm cache serves the
previously memoized value instead of querying the store.  `addProvider`
is the cache-cold special case. -/
def addProviderCached (cache : Option Int) (s : Store)
    (name ptype address city contact : String) :
    Except String (Store × Int) × Option Int :=
  if pyStrip name = "" || pyStrip city = "" then
    (.error "Name and City cannot be empty.", cache)
  else
    let r := load_table_next_id cache
      (s.providers.map (fun p => p.Provider_ID))
    (.ok ({ s with providers := s.providers ++
            [⟨r.1, pyStrip name, ptype, pyStrip city, pyStrip contact,
              pyStrip address⟩] }, r.1),
     r.2)

/-! ## Theorems on the filter-composition utility -/

set_option maxRecDepth 8000

theorem where_append_ne_empty (x : String) : " WHERE " ++ x ≠ "" := by
  intro h
  have h2 := congrArg String.length h
  rw [String.length_append] at h2
  simp only [show (" WHERE " : String).length = 7 from rfl,
    show ("" : String).length = 0 from rfl] at h2
  omega

theorem specFragment_eq_empty_iff
    (dims : List (String × List String × String)) :
    specFragment dims = "" ↔ ∀ d ∈ dims, d.2.1 = [] := by
  unfold specFragment
  split
  · rename_i h
    simp only [activeClauses, List.map_eq_nil_iff, List.filter_eq_nil_iff] at h
    simp only [true_iff]
    intro d hd
    simpa using h d hd
  · rename_i h
    simp only [activeClauses, List.map_eq_nil_iff, List.filter_eq_nil_iff] at h
    push_neg at h
    obtain ⟨d, hd, hne⟩ := h
    exact iff_of_false (where_append_ne_empty _) (fun hall => by
      have := hall d hd
      simp [this] at hne)

theorem fiveDimWhere_text (cities ptypes ftypes mtypes cstats : List String) :
    (fiveDimWhere cities ptypes ftypes mtypes cstats).1 =
      specFragment (fiveDims cities ptypes ftypes mtypes cstats) := by
  rcases cities with _ | ⟨c, cs⟩ <;> rcases ptypes with _ | ⟨p, ps⟩ <;>
    rcases ftypes with _ | ⟨f, fs⟩ <;> rcases mtypes with _ | ⟨m, ms⟩ <;>
    rcases cstats with _ | ⟨t, ts⟩ <;> rfl

theorem fiveDimWhere_sat (cities ptypes ftypes mtypes cstats : List String)
    (row : String → String) :
    fragSat row (fiveDimWhere cities ptypes ftypes mtypes cstats).2
        (fiveDimWhere cities ptypes ftypes mtypes cstats).1 =
      expectedSat row (fiveDims cities ptypes ftypes mtypes cstats) := by
  rcases cities with _ | ⟨c, cs⟩ <;> rcases ptypes with _ | ⟨p, ps⟩ <;>
    rcases ftypes with _ | ⟨f, fs⟩ <;> rcases mtypes with _ | ⟨m, ms⟩ <;>
    rcases cstats with _ | ⟨t, ts⟩ <;> rfl

theorem fiveDimWhere_flags (cities ptypes ftypes mtypes cstats : List String) :
    (fiveDimWhere cities ptypes ftypes mtypes cstats).1 =
      fragOfFlags (!decide (cities = [])) (!decide (ptypes = []))
        (!decide (ftypes = [])) (!decide (mtypes = []))
        (!decide (cstats = [])) := by
  rcases cities with _ | ⟨c, cs⟩ <;> rcases ptypes with _ | ⟨p, ps⟩ <;>
    rcases ftypes with _ | ⟨f, fs⟩ <;> rcases mtypes with _ | ⟨m, ms⟩ <;>
    rcases cstats with _ | ⟨t, ts⟩ <;> rfl

theorem fiveDimWhere_params (cities ptypes ftypes mtypes cstats : List String) :
    (cities ≠ [] →
      (fiveDimWhere cities ptypes ftypes mtypes cstats).2 "cities" = cities) ∧
    (ptypes ≠ [] →
      (fiveDimWhere cities ptypes ftypes mtypes cstats).2 "ptypes" = ptypes) ∧
    (ftypes ≠ [] →
      (fiveDimWhere cities ptypes ftypes mtypes cstats).2 "ftypes" = ftypes) ∧
    (mtypes ≠ [] →
      (fiveDimWhere cities ptypes ftypes mtypes cstats).2 "mtypes" = mtypes) ∧
    (cstats ≠ [] →
      (fiveDimWhere cities ptypes ftypes mtypes cstats).2 "cstats" = cstats) := by
  rcases cities with _ | ⟨c, cs⟩ <;> rcases ptypes with _ | ⟨p, ps⟩ <;>
    rcases ftypes with _ | ⟨f, fs⟩ <;> rcases mtypes with _ | ⟨m, ms⟩ <;>
    rcases cstats with _ | ⟨t, ts⟩ <;>
    refine ⟨?_, ?_, ?_, ?_, ?_⟩ <;> intro _ <;> rfl

/-- C1: for every assignment of the five filter dimensions to value sets,
the utility's fragment is exactly the conjunction of one `column IN (...)`
clause per non-empty dimension (empty string, no `WHERE`, when all are
empty or absent), and — reading the fragment back the way the SQL engine
does, with the produced parameter binding — a row satisfies it iff for
every non-empty dimension the row's bound column value is a member of that
dimension's value set. -/
theorem C1_filter_composition
    (cities ptypes ftypes mtypes cstats : List String)
    (row : String → String) :
    (fiveDimWhere cities ptypes ftypes mtypes cstats).1 =
      specFragment (fiveDims cities ptypes ftypes mtypes cstats) ∧
    ((fiveDimWhere cities ptypes ftypes mtypes cstats).1 = "" ↔
      (cities = [] ∧ ptypes = [] ∧ ftypes = [] ∧ mtypes = [] ∧
        cstats = [])) ∧
    fragSat row (fiveDimWhere cities ptypes ftypes mtypes cstats).2
        (fiveDimWhere cities ptypes ftypes mtypes cstats).1 =
      expectedSat row (fiveDims cities ptypes ftypes mtypes cstats) := by
  refine ⟨fiveDimWhere_text .., ?_, fiveDimWhere_sat ..⟩
  rw [fiveDimWhere_text, specFragment_eq_empty_iff]
  simp [fiveDims]

/-- C2: two filter assignments that agree on which dimensions are
non-empty produce identical SQL query text (so no filter value is ever
concatenated into the text), while the values themselves are carried in
the parameter binding, one distinct parameter name per `IN` clause. -/
theorem C2_no_values_in_query_text
    (cities ptypes ftypes mtypes cstats
      cities' ptypes' ftypes' mtypes' cstats' : List String)
    (h1 : cities = [] ↔ cities' = []) (h2 : ptypes = [] ↔ ptypes' = [])
    (h3 : ftypes = [] ↔ ftypes' = []) (h4 : mtypes = [] ↔ mtypes' = [])
    (h5 : cstats = [] ↔ cstats' = []) :
    (fiveDimWhere cities ptypes ftypes mtypes cstats).1 =
      (fiveDimWhere cities' ptypes' ftypes' mtypes' cstats').1 ∧
    ((cities ≠ [] →
      (fiveDimWhere cities ptypes ftypes mtypes cstats).2 "cities" = cities) ∧
     (ptypes ≠ [] →
      (fiveDimWhere cities ptypes ftypes mtypes cstats).2 "ptypes" = ptypes) ∧
     (ftypes ≠ [] →
      (fiveDimWhere cities ptypes ftypes mtypes cstats).2 "ftypes" = ftypes) ∧
     (mtypes ≠ [] →
      (fiveDimWhere cities ptypes ftypes mtypes cstats).2 "mtypes" = mtypes) ∧
     (cstats ≠ [] →
      (fiveDimWhere cities ptypes ftypes mtypes cstats).2 "cstats" = cstats)) := by
  refine ⟨?_, fiveDimWhere_params ..⟩
  rw [fiveDimWhere_flags, fiveDimWhere_flags, decide_eq_decide.mpr h1,
    decide_eq_decide.mpr h2, decide_eq_decide.mpr h3,
    decide_eq_decide.mpr h4, decide_eq_decide.mpr h5]

/-- C2, witnessed: the assignments `cities = ["Delhi"]` and
`cities' = ["Pune", "Mumbai"]` (with, e.g., meal types `["Lunch"]` vs
`["Dinner"]` and the other dimensions empty) yield identical query text,
and each carries its own values in its parameter binding. -/
theorem C2_no_values_in_query_text_witness :
    (fiveDimWhere ["Delhi"] [] [] ["Lunch"] []).1 =
      (fiveDimWhere ["Pune", "Mumbai"] [] [] ["Dinner"] []).1 ∧
    ((["Delhi"] ≠ ([] : List String) →
      (fiveDimWhere ["Delhi"] [] [] ["Lunch"] []).2 "cities" = ["Delhi"]) ∧
     (([] : List String) ≠ [] →
      (fiveDimWhere ["Delhi"] [] [] ["Lunch"] []).2 "ptypes" = []) ∧
     (([] : List String) ≠ [] →
      (fiveDimWhere ["Delhi"] [] [] ["Lunch"] []).2 "ftypes" = []) ∧
     (["Lunch"] ≠ ([] : List String) →
      (fiveDimWhere ["Delhi"] [] [] ["Lunch"] []).2 "mtypes" = ["Lunch"]) ∧
     (([] : List String) ≠ [] →
      (fiveDimWhere ["Delhi"] [] [] ["Lunch"] []).2 "cstats" = [])) :=
  C2_no_values_in_query_text ["Delhi"] [] [] ["Lunch"] []
    ["Pune", "Mumbai"] [] [] ["Dinner"] []
    (by decide) (by decide) (by decide) (by decide) (by decide)

/-! ## Theorems on the mutation layer -/

instance : Std.Antisymm (fun (a b : Int) => a ≤ b) :=
  ⟨fun h1 h2 => le_antisymm h1 h2⟩

theorem le_sqlMaxOr0 (ids : List Int) : ∀ i ∈ ids, i ≤ sqlMaxOr0 ids := by
  intro i hi
  unfold sqlMaxOr0
  cases h : ids.max? with
  | none =>
    rw [List.max?_eq_none_iff] at h
    subst h
    cases hi
  | some m =>
    have hm := (List.max?_eq_some_iff (fun a => le_refl a)
      (fun a b => max_choice a b) (fun a b c => max_le_iff)).mp h
    exact hm.2 i hi

theorem sqlMaxOr0_spec (ids : List Int) (h : ids ≠ []) :
    ∃ m ∈ ids, (∀ j ∈ ids, j ≤ m) ∧ sqlMaxOr0 ids = m := by
  cases hm : ids.max? with
  | none =>
    rw [List.max?_eq_none_iff] at hm
    exact absurd hm h
  | some m =>
    have hspec := (List.max?_eq_some_iff (fun a => le_refl a)
      (fun a b => max_choice a b) (fun a b c => max_le_iff)).mp hm
    exact ⟨m, hspec.1, hspec.2, by unfold sqlMaxOr0; rw [hm]⟩

theorem next_id_grows (ids bigger : List Int)
    (h : sqlMaxOr0 ids + 1 ∈ bigger) :
    sqlMaxOr0 ids + 1 < sqlMaxOr0 bigger + 1 :=
  lt_of_le_of_lt (le_sqlMaxOr0 bigger _ h) (lt_add_one _)

/-- C4 counterexample: the claim asserts that all four entities get their
primary key assigned as `max(existing)+1` by the mutation layer, but the
food-listing `INSERT` of app.py names no `Food_ID` column at all — the
key of a new food listing is delegated to the database. -/
theorem C4_counterexample_food_key_not_assigned :
    "Food_ID" ∉ foodInsertColumns := by decide

/-- C4 (amended): the Provider, Receiver and Claim create operations
assign the new primary key as `max(existing ids) + 1` (`1` when the table
is empty), computed by a `COALESCE(MAX(...),0)+1` query at insert time;
the Food-listing create instead issues an `INSERT` without the key
column, delegating key assignment to the database. -/
theorem C4_amended_key_assignment (s : Store)
    (name ptype address city contact rname rtype rcity rcontact : String)
    (fs rs : List Int) (fid rid : Int) (cstatus cts : String) :
    (∀ s' i, addProvider s name ptype address city contact = .ok (s', i) →
      (s.providers = [] → i = 1) ∧
      (s.providers ≠ [] →
        ∃ m ∈ s.providers.map (fun p => p.Provider_ID),
          (∀ j ∈ s.providers.map (fun p => p.Provider_ID), j ≤ m) ∧
          i = m + 1)) ∧
    (∀ s' i, addReceiver s rname rtype rcity rcontact = .ok (s', i) →
      (s.receivers = [] → i = 1) ∧
      (s.receivers ≠ [] →
        ∃ m ∈ s.receivers.map (fun r => r.Receiver_ID),
          (∀ j ∈ s.receivers.map (fun r => r.Receiver_ID), j ≤ m) ∧
          i = m + 1)) ∧
    (∀ s' i, addClaim fs rs s fid rid cstatus cts = .ok (s', i) →
      (s.claims = [] → i = 1) ∧
      (s.claims ≠ [] →
        ∃ m ∈ s.claims.map (fun c => c.Claim_ID),
          (∀ j ∈ s.claims.map (fun c => c.Claim_ID), j ≤ m) ∧
          i = m + 1)) ∧
    "Food_ID" ∉ foodInsertColumns ∧
    "Provider_ID" ∈ providerInsertColumns ∧
    "Receiver_ID" ∈ receiverInsertColumns ∧
    "Claim_ID" ∈ claimInsertColumns := by
  refine ⟨?_, ?_, ?_, by decide, by decide, by decide, by decide⟩
  · intro s' i h
    unfold addProvider at h
    split at h
    · exact Except.noConfusion h
    · cases h
      constructor
      · intro he
        simp [he, sqlMaxOr0, List.max?_nil]
      · intro hne
        obtain ⟨m, hmem, hub, hval⟩ :=
          sqlMaxOr0_spec (s.providers.map (fun p => p.Provider_ID))
            (by simpa using hne)
        exact ⟨m, hmem, hub, by rw [hval]⟩
  · intro s' i h
    unfold addReceiver at h
    split at h
    · exact Except.noConfusion h
    · cases h
      constructor
      · intro he
        simp [he, sqlMaxOr0, List.max?_nil]
      · intro hne
        obtain ⟨m, hmem, hub, hval⟩ :=
          sqlMaxOr0_spec (s.receivers.map (fun r => r.Receiver_ID))
            (by simpa using hne)
        exact ⟨m, hmem, hub, by rw [hval]⟩
  · intro s' i h
    unfold addClaim at h
    split at h
    · exact Except.noConfusion h
    · split at h
      · exact Except.noConfusion h
      · cases h
        constructor
        · intro he
          simp [he, sqlMaxOr0, List.max?_nil]
        · intro hne
          obtain ⟨m, hmem, hub, hval⟩ :=
            sqlMaxOr0_spec (s.claims.map (fun c => c.Claim_ID))
              (by simpa using hne)
          exact ⟨m, hmem, hub, by rw [hval]⟩

/-- C4 (amended), witnessed on a provider table `{id 3}`, a receiver
table `{id 7}` and an empty claims table: the assigned ids are `4`, `8`
and `1`. -/
theorem C4_amended_key_assignment_witness :
    ((Store.mk [⟨3, "A", "Restaurant", "Delhi", "", ""⟩] [] [] []).providers ≠ [] →
      ∃ m ∈ (Store.mk [⟨3, "A", "Restaurant", "Delhi", "", ""⟩] [] [] []).providers.map
          (fun p => p.Provider_ID),
        (∀ j ∈ (Store.mk [⟨3, "A", "Restaurant", "Delhi", "", ""⟩] [] [] []).providers.map
            (fun p => p.Provider_ID), j ≤ m) ∧ (4 : Int) = m + 1) ∧
    ((Store.mk [] [] [] []).claims = [] → (1 : Int) = 1) :=
  have h := C4_amended_key_assignment
    (Store.mk [⟨3, "A", "Restaurant", "Delhi", "", ""⟩] [] [] [])
    "B" "Restaurant" "addr" "Pune" "c" "R" "NGO" "Goa" "c2"
    [5] [9] 5 9 "Pending" "2024-01-01 00:00:00"
  have h2 := C4_amended_key_assignment (Store.mk [] [] [] [])
    "B" "Restaurant" "addr" "Pune" "c" "R" "NGO" "Goa" "c2"
    [5] [9] 5 9 "Pending" "2024-01-01 00:00:00"
  ⟨(h.1 _ 4 rfl).2, (h2.2.2.1 _ 1 rfl).1⟩

/-- C5 counterexample: `load_table` is `@st.cache_data`-memoized, and the
next-id query goes through it, so the second sequential create in a
server process is served the memoized value instead of a fresh read.  On
a store holding provider id `1`, the first create assigns `2` and warms
the cache; the second sequential create then assigns `2` again — not
distinct from the first id, and not strictly greater than every id
existing at call time. -/
theorem C5_counterexample_cached_next_id :
    addProviderCached none
      (Store.mk [⟨1, "A", "Restaurant", "Delhi", "", ""⟩] [] [] [])
      "B" "Restaurant" "addr" "Pune" "c" =
      (.ok (Store.mk
        [⟨1, "A", "Restaurant", "Delhi", "", ""⟩,
         ⟨2, "B", "Restaurant", "Pune", "c", "addr"⟩] [] [] [], 2),
       some 2) ∧
    addProviderCached (some 2)
      (Store.mk
        [⟨1, "A", "Restaurant", "Delhi", "", ""⟩,
         ⟨2, "B", "Restaurant", "Pune", "c", "addr"⟩] [] [] [])
      "C" "Restaurant" "addr" "Goa" "c" =
      (.ok (Store.mk
        [⟨1, "A", "Restaurant", "Delhi", "", ""⟩,
         ⟨2, "B", "Restaurant", "Pune", "c", "addr"⟩,
         ⟨2, "C", "Restaurant", "Goa", "c", "addr"⟩] [] [] [], 2),
       some 2) ∧
    ¬(∀ p ∈ (Store.mk
        [⟨1, "A", "Restaurant", "Delhi", "", ""⟩,
         ⟨2, "B", "Restaurant", "Pune", "c", "addr"⟩] [] [] []).providers,
      p.Provider_ID < 2) :=
  ⟨rfl, rfl, by decide⟩

/-- C5 (amended): when the next-id query is freshly issued (the
`load_table` memoization is cold — `addProvider` is exactly the
cache-cold run of `addProviderCached`), a successful create on Provider,
Receiver or Claim assigns an id strictly greater than every id present
for that entity at call time, and two such sequential (non-concurrent)
creates assign distinct ids; when the memoized loader serves a cached
value instead, the second create repeats it (see the counterexample). -/
theorem C5_create_ids_strictly_increase (s : Store)
    (n1 t1 a1 c1 k1 n2 t2 a2 c2 k2 : String)
    (rn1 rt1 rc1 rk1 rn2 rt2 rc2 rk2 : String)
    (fs rs : List Int) (fid1 rid1 fid2 rid2 : Int) (st1 ts1 st2 ts2 : String) :
    (∀ s1 i1, addProvider s n1 t1 a1 c1 k1 = .ok (s1, i1) →
      (∀ p ∈ s.providers, p.Provider_ID < i1) ∧
      ∀ s2 i2, addProvider s1 n2 t2 a2 c2 k2 = .ok (s2, i2) →
        i1 ≠ i2 ∧ i1 < i2) ∧
    (∀ s1 i1, addReceiver s rn1 rt1 rc1 rk1 = .ok (s1, i1) →
      (∀ r ∈ s.receivers, r.Receiver_ID < i1) ∧
      ∀ s2 i2, addReceiver s1 rn2 rt2 rc2 rk2 = .ok (s2, i2) →
        i1 ≠ i2 ∧ i1 < i2) ∧
    (∀ s1 i1, addClaim fs rs s fid1 rid1 st1 ts1 = .ok (s1, i1) →
      (∀ c ∈ s.claims, c.Claim_ID < i1) ∧
      ∀ s2 i2, addClaim fs rs s1 fid2 rid2 st2 ts2 = .ok (s2, i2) →
        i1 ≠ i2 ∧ i1 < i2) ∧
    (addProviderCached none s n1 t1 a1 c1 k1).1 =
      addProvider s n1 t1 a1 c1 k1 := by
  have key : ∀ (ids : List Int) (i : Int), i ∈ ids → i < sqlMaxOr0 ids + 1 :=
    fun ids i hi => lt_of_le_of_lt (le_sqlMaxOr0 ids i hi) (lt_add_one _)
  refine ⟨?_, ?_, ?_, ?_⟩
  · intro s1 i1 h
    unfold addProvider at h
    split at h
    · exact Except.noConfusion h
    · cases h
      refine ⟨fun p hp => key _ _ (List.mem_map_of_mem _ hp), ?_⟩
      intro s2 i2 h2
      unfold addProvider at h2
      split at h2
      · exact Except.noConfusion h2
      · cases h2
        refine ⟨ne_of_lt (next_id_grows _ _ ?_), next_id_grows _ _ ?_⟩ <;>
          simp
  · intro s1 i1 h
    unfold addReceiver at h
    split at h
    · exact Except.noConfusion h
    · cases h
      refine ⟨fun r hr => key _ _ (List.mem_map_of_mem _ hr), ?_⟩
      intro s2 i2 h2
      unfold addReceiver at h2
      split at h2
      · exact Except.noConfusion h2
      · cases h2
        refine ⟨ne_of_lt (next_id_grows _ _ ?_), next_id_grows _ _ ?_⟩ <;>
          simp
  · intro s1 i1 h
    unfold addClaim at h
    split at h
    · exact Except.noConfusion h
    · split at h
      · exact Except.noConfusion h
      · cases h
        refine ⟨fun c hc => key _ _ (List.mem_map_of_mem _ hc), ?_⟩
        intro s2 i2 h2
        unfold addClaim at h2
        split at h2
        · exact Except.noConfusion h2
        · split at h2
          · exact Except.noConfusion h2
          · cases h2
            refine ⟨ne_of_lt (next_id_grows _ _ ?_), next_id_grows _ _ ?_⟩ <;>
              simp
  · unfold addProviderCached addProvider load_table_next_id
    split <;> rfl

/-- C5, witnessed on a store holding provider id `3`: the first create
assigns `4 > 3` and a second sequential create assigns `5 ≠ 4`. -/
theorem C5_create_ids_strictly_increase_witness :
    (∀ p ∈ (Store.mk [⟨3, "A", "Restaurant", "Delhi", "", ""⟩] [] [] []).providers,
      p.Provider_ID < 4) ∧ (4 : Int) ≠ 5 ∧ (4 : Int) < 5 :=
  have h := (C5_create_ids_strictly_increase
    (Store.mk [⟨3, "A", "Restaurant", "Delhi", "", ""⟩] [] [] [])
    "B" "Restaurant" "a" "Pune" "c" "C" "Grocery Store" "a2" "Goa" "c2"
    "x" "NGO" "y" "z" "x2" "NGO" "y2" "z2"
    [] [] 0 0 0 0 "Pending" "t" "Pending" "t").1 _ 4 rfl
  ⟨h.1, (h.2 _ 5 rfl).1, (h.2 _ 5 rfl).2⟩

/-- C9: the Food-listing create is rejected, with no insert issued,
whenever the supplied `Provider_ID` is not in the previously loaded
provider snapshot (whatever the live store holds); when it is in the
snapshot and the required string fields are non-empty after stripping,
the insert is issued with the stripped values. -/
theorem C9_food_create_validation (providerSnapshot : List Int)
    (food_name : String) (qty : Int) (expiry : String) (provider_id : Int)
    (location provider_type food_type meal_type : String) :
    (provider_id ∉ providerSnapshot →
      addFoodListing providerSnapshot food_name qty expiry provider_id
          location provider_type food_type meal_type =
        .error "Invalid Provider ID (must exist in providers).") ∧
    (provider_id ∈ providerSnapshot → pyStrip food_name ≠ "" →
      pyStrip location ≠ "" →
      addFoodListing providerSnapshot food_name qty expiry provider_id
          location provider_type food_type meal_type =
        .ok ⟨pyStrip food_name, qty, expiry, provider_id, provider_type,
             pyStrip location, food_type, meal_type⟩) := by
  constructor
  · intro hnot
    unfold addFoodListing
    rw [if_pos hnot]
  · intro hmem hname hloc
    unfold addFoodListing
    rw [if_neg (by simpa using hmem), if_neg (by simp [hname, hloc])]

/-- C9, witnessed: with provider snapshot `[1, 2]`, provider id `7` is
rejected and provider id `2` with non-blank fields is inserted
(stripped). -/
theorem C9_food_create_validation_witness :
    ((7 : Int) ∉ [(1 : Int), 2] ∧
      addFoodListing [1, 2] " Rice " 10 "2024-01-01" 7 " Delhi "
          "Restaurant" "Vegetarian" "Lunch" =
        .error "Invalid Provider ID (must exist in providers).") ∧
    ((2 : Int) ∈ [(1 : Int), 2] ∧
      addFoodListing [1, 2] " Rice " 10 "2024-01-01" 2 " Delhi "
          "Restaurant" "Vegetarian" "Lunch" =
        .ok ⟨"Rice", 10, "2024-01-01", 2, "Restaurant", "Delhi",
             "Vegetarian", "Lunch"⟩) :=
  ⟨⟨by decide,
    (C9_food_create_validation [1, 2] " Rice " 10 "2024-01-01" 7 " Delhi "
      "Restaurant" "Vegetarian" "Lunch").1 (by decide)⟩,
   ⟨by decide,
    (C9_food_create_validation [1, 2] " Rice " 10 "2024-01-01" 2 " Delhi "
      "Restaurant" "Vegetarian" "Lunch").2 (by decide) (by decide) (by decide)⟩⟩

/-- C10: the claim-status update touches nothing but the `Status` field
of the rows whose `Claim_ID` matches: the other three tables are
unchanged, the claims table keeps its length, every claim keeps its
`Claim_ID`, `Food_ID`, `Receiver_ID` and `Timestamp`, rows with a
non-matching id are untouched, and matching rows get the new status. -/
theorem C10_claim_update_frame (s : Store) (cid : Int) (st : String) :
    (updateClaimStatus s cid st).providers = s.providers ∧
    (updateClaimStatus s cid st).receivers = s.receivers ∧
    (updateClaimStatus s cid st).food_listings = s.food_listings ∧
    (updateClaimStatus s cid st).claims.length = s.claims.length ∧
    ∀ i : Nat,
      ((updateClaimStatus s cid st).claims.getD i default).Claim_ID =
        (s.claims.getD i default).Claim_ID ∧
      ((updateClaimStatus s cid st).claims.getD i default).Food_ID =
        (s.claims.getD i default).Food_ID ∧
      ((updateClaimStatus s cid st).claims.getD i default).Receiver_ID =
        (s.claims.getD i default).Receiver_ID ∧
      ((updateClaimStatus s cid st).claims.getD i default).Timestamp =
        (s.claims.getD i default).Timestamp ∧
      ((s.claims.getD i default).Claim_ID ≠ cid →
        (updateClaimStatus s cid st).claims.getD i default =
          s.claims.getD i default) ∧
      (i < s.claims.length → (s.claims.getD i default).Claim_ID = cid →
        ((updateClaimStatus s cid st).claims.getD i default).Status = st) := by
  refine ⟨rfl, rfl, rfl, by simp [updateClaimStatus], ?_⟩
  intro i
  simp only [updateClaimStatus, List.getD_eq_getElem?_getD, List.getElem?_map]
  cases hi : s.claims[i]? with
  | none =>
    have hge : s.claims.length ≤ i := by
      by_contra hlt
      push_neg at hlt
      rw [List.getElem?_eq_getElem hlt] at hi
      exact Option.noConfusion hi
    exact ⟨rfl, rfl, rfl, rfl, fun _ => rfl, fun hlt _ => absurd hlt (by omega)⟩
  | some c =>
    by_cases hc : c.Claim_ID = cid
    · simp [hc]
    · have hlen : i < s.claims.length := by
        by_contra hge
        rw [List.getElem?_eq_none (by omega)] at hi
        exact Option.noConfusion hi
      simp [hc]

/-! ## Theorems on empty results (C3) -/

theorem orderByValDesc_nil {K V : Type} [LinearOrder V] :
    orderByValDesc ([] : List (K × V)) = [] := by
  unfold orderByValDesc
  exact List.mergeSort_nil

/-- C3 counterexample: the legacy unfiltered `total_food_quantity` issues
`SELECT SUM(Quantity)` with no `COALESCE`, so on an empty `food_listings`
table its scalar is SQL `NULL` (`none`) — not the scalar zero the claim
requires of every KPI/report function. -/
theorem C3_counterexample_total_quantity_null :
    total_food_quantity emptyStore = none ∧
    total_food_quantity emptyStore ≠ some 0 :=
  ⟨rfl, fun h => Option.noConfusion h⟩

/-- C3 (amended): with the legacy unfiltered `total_food_quantity`
excepted, every KPI scalar returns `0` when no rows match its filters
(the four KPI aggregates being provider count, receiver count, claim
count, and the `COALESCE`d filtered food quantity), and every report
returns a valid empty table on any store where no rows match that
report's filters.  `providers_per_city`, `receivers_per_city` and
`city_highest_listings` filter by the same conditions as the
corresponding KPIs, so they reuse the top-level no-match hypotheses;
every other report conjunct carries exactly its own no-match condition
(for the unfiltered branch of `claim_status_distribution`, "no rows
match" means an empty claims table). -/
theorem C3_amended_empty_results (s : Store)
    (cities ptypes ftypes mtypes cstats : List String)
    (hp : ∀ p ∈ s.providers,
      (dimSat cities p.City && dimSat ptypes p.«Type») = false)
    (hr : ∀ r ∈ s.receivers, dimSat cities r.City = false)
    (hc1 : cities = [] → ∀ c ∈ s.claims, dimSat cstats c.Status = false)
    (hc2 : cities ≠ [] → ∀ x ∈ joinClaimsReceivers s,
      (decide (x.2.City ∈ cities) && dimSat cstats x.1.Status) = false)
    (hf : ∀ f ∈ s.food_listings,
      (dimSat cities f.Location && dimSat ptypes f.Provider_Type &&
        dimSat ftypes f.Food_Type && dimSat mtypes f.Meal_Type) = false) :
    count_providers s cities ptypes = 0 ∧
    count_receivers s cities = 0 ∧
    count_claims s cities cstats = 0 ∧
    total_food_quantity_filtered s cities ptypes ftypes mtypes = 0 ∧
    providers_per_city s cities ptypes = [] ∧
    receivers_per_city s cities = [] ∧
    ((∀ p ∈ s.providers, dimSat cities p.City = false) →
      top_provider_types s cities = []) ∧
    ((∀ p ∈ s.providers, dimSat cities p.City = false) →
      provider_contacts s cities = []) ∧
    ((∀ x ∈ joinReceiversClaims s,
        (dimSat cities x.1.City && dimSat cstats x.2.Status) = false) →
      top_receivers s cities cstats = []) ∧
    city_highest_listings s cities ptypes ftypes mtypes = [] ∧
    ((∀ f ∈ s.food_listings, dimSat cities f.Location = false) →
      common_food_types s cities = []) ∧
    ((∀ x ∈ joinFoodClaimsReceivers s,
        (dimSat cities x.2.2.City && dimSat cstats x.2.1.Status) = false) →
      claims_per_food s cities cstats = []) ∧
    ((∀ x ∈ joinProvidersFoodClaims s,
        (decide (x.2.2.Status = "Completed") &&
          dimSat cities x.1.City) = false) →
      top_providers_successful_claims s cities = []) ∧
    ((cities = [] → s.claims = [] →
      claim_status_distribution s cities = []) ∧
     (cities ≠ [] →
      (∀ x ∈ joinClaimsReceivers s, decide (x.2.City ∈ cities) = false) →
      claim_status_distribution s cities = [])) ∧
    ((∀ x ∈ joinReceiversClaimsFood s, dimSat cities x.1.City = false) →
      avg_quantity_per_receiver s cities = []) ∧
    ((∀ x ∈ joinFoodClaimsReceivers s, dimSat cities x.2.2.City = false) →
      most_claimed_meal_type s cities = []) ∧
    ((∀ x ∈ joinProvidersFood s, dimSat cities x.1.City = false) →
      total_quantity_per_provider s cities = []) ∧
    ((∀ x ∈ joinReceiversClaims s, dimSat cities x.1.City = false) →
      cities_with_most_claims s cities = []) := by
  refine ⟨?_, ?_, ?_, ?_, ?_, ?_, ?_, ?_, ?_, ?_, ?_, ?_, ?_, ⟨?_, ?_⟩,
    ?_, ?_, ?_, ?_⟩
  · unfold count_providers
    rw [List.filter_eq_nil_iff.mpr (fun p hmem => by simp [hp p hmem])]
    rfl
  · unfold count_receivers
    rw [List.filter_eq_nil_iff.mpr (fun r hmem => by simp [hr r hmem])]
    rfl
  · unfold count_claims
    by_cases hcity : cities = []
    · rw [if_pos hcity,
        List.filter_eq_nil_iff.mpr (fun c hmem => by simp [hc1 hcity c hmem])]
      rfl
    · rw [if_neg hcity,
        List.filter_eq_nil_iff.mpr (fun x hmem => by simp [hc2 hcity x hmem])]
      rfl
  · unfold total_food_quantity_filtered
    rw [List.filter_eq_nil_iff.mpr (fun f hmem => by simp [hf f hmem])]
    rfl
  · unfold providers_per_city
    rw [List.filter_eq_nil_iff.mpr (fun p hmem => by simp [hp p hmem])]
    rfl
  · unfold receivers_per_city
    rw [List.filter_eq_nil_iff.mpr (fun r hmem => by simp [hr r hmem])]
    rfl
  · intro h
    unfold top_provider_types
    rw [List.filter_eq_nil_iff.mpr (fun p hmem => by simp [h p hmem])]
    exact orderByValDesc_nil
  · intro h
    unfold provider_contacts
    rw [List.filter_eq_nil_iff.mpr (fun p hmem => by simp [h p hmem])]
    rfl
  · intro h
    unfold top_receivers
    rw [List.filter_eq_nil_iff.mpr (fun x hmem => by simp [h x hmem])]
    exact orderByValDesc_nil
  · unfold city_highest_listings
    rw [List.filter_eq_nil_iff.mpr (fun f hmem => by simp [hf f hmem])]
    exact orderByValDesc_nil
  · intro h
    unfold common_food_types
    rw [List.filter_eq_nil_iff.mpr (fun f hmem => by simp [h f hmem])]
    exact orderByValDesc_nil
  · intro h
    unfold claims_per_food
    rw [List.filter_eq_nil_iff.mpr (fun x hmem => by simp [h x hmem])]
    exact orderByValDesc_nil
  · intro h
    unfold top_providers_successful_claims
    rw [List.filter_eq_nil_iff.mpr (fun x hmem => by simp [h x hmem])]
    exact orderByValDesc_nil
  · intro hcity hnil
    unfold claim_status_distribution
    rw [if_pos hcity, hnil]
    rfl
  · intro hcity h
    unfold claim_status_distribution
    rw [if_neg hcity,
      List.filter_eq_nil_iff.mpr (fun x hmem => by simp [h x hmem])]
    rfl
  · intro h
    unfold avg_quantity_per_receiver
    rw [List.filter_eq_nil_iff.mpr (fun x hmem => by simp [h x hmem])]
    exact orderByValDesc_nil
  · intro h
    unfold most_claimed_meal_type
    rw [List.filter_eq_nil_iff.mpr (fun x hmem => by simp [h x hmem])]
    exact orderByValDesc_nil
  · intro h
    unfold total_quantity_per_provider
    rw [List.filter_eq_nil_iff.mpr (fun x hmem => by simp [h x hmem])]
    exact orderByValDesc_nil
  · intro h
    unfold cities_with_most_claims
    rw [List.filter_eq_nil_iff.mpr (fun x hmem => by simp [h x hmem])]
    exact orderByValDesc_nil

/-- C3 (amended), witnessed on the spec's §8 scenario: one Delhi provider
and one Delhi food listing, queried with the city filter `["Mumbai"]` —
every KPI scalar is `0`, and the reports (here `providers_per_city` and
`top_provider_types`) return empty tables on this non-empty store. -/
theorem C3_amended_empty_results_witness :
    count_providers
      (Store.mk [⟨1, "A", "Restaurant", "Delhi", "", ""⟩] []
        [⟨1, "Rice", 10, "2024-01-01", 1, "Restaurant", "Delhi",
          "Vegetarian", "Lunch"⟩] [])
      ["Mumbai"] [] = 0 ∧
    count_receivers
      (Store.mk [⟨1, "A", "Restaurant", "Delhi", "", ""⟩] []
        [⟨1, "Rice", 10, "2024-01-01", 1, "Restaurant", "Delhi",
          "Vegetarian", "Lunch"⟩] [])
      ["Mumbai"] = 0 ∧
    count_claims
      (Store.mk [⟨1, "A", "Restaurant", "Delhi", "", ""⟩] []
        [⟨1, "Rice", 10, "2024-01-01", 1, "Restaurant", "Delhi",
          "Vegetarian", "Lunch"⟩] [])
      ["Mumbai"] [] = 0 ∧
    total_food_quantity_filtered
      (Store.mk [⟨1, "A", "Restaurant", "Delhi", "", ""⟩] []
        [⟨1, "Rice", 10, "2024-01-01", 1, "Restaurant", "Delhi",
          "Vegetarian", "Lunch"⟩] [])
      ["Mumbai"] [] [] [] = 0 ∧
    providers_per_city
      (Store.mk [⟨1, "A", "Restaurant", "Delhi", "", ""⟩] []
        [⟨1, "Rice", 10, "2024-01-01", 1, "Restaurant", "Delhi",
          "Vegetarian", "Lunch"⟩] [])
      ["Mumbai"] [] = [] ∧
    top_provider_types
      (Store.mk [⟨1, "A", "Restaurant", "Delhi", "", ""⟩] []
        [⟨1, "Rice", 10, "2024-01-01", 1, "Restaurant", "Delhi",
          "Vegetarian", "Lunch"⟩] [])
      ["Mumbai"] = [] := by
  have h := C3_amended_empty_results
    (Store.mk [⟨1, "A", "Restaurant", "Delhi", "", ""⟩] []
      [⟨1, "Rice", 10, "2024-01-01", 1, "Restaurant", "Delhi",
        "Vegetarian", "Lunch"⟩] [])
    ["Mumbai"] [] [] [] []
    (by decide) (by decide) (by decide) (by decide) (by decide)
  exact ⟨h.1, h.2.1, h.2.2.1, h.2.2.2.1, h.2.2.2.2.1,
    h.2.2.2.2.2.2.1 (by decide)⟩

/-! ## Theorems on KPI additivity over city partitions (C6) -/

theorem dimSat_nil (x : String) : dimSat [] x = true := rfl

theorem dimSat_of_ne_nil {values : List String} (h : values ≠ [])
    (x : String) : dimSat values x = decide (x ∈ values) := by
  unfold dimSat
  rw [decide_eq_false h, Bool.false_or]

theorem length_eq_sum_ones {α : Type} (l : List α) :
    l.length = (l.map (fun _ => (1 : ℕ))).sum := by
  induction l with
  | nil => rfl
  | cons x t ih =>
    rw [List.length_cons, List.map_cons, List.sum_cons, ih]
    omega

theorem sum_map_ite {β M : Type} [AddCommMonoid M] (cells : List β)
    (p : β → Prop) [DecidablePred p] (a : M) (f : β → M) :
    (cells.map (fun c => if p c then a + f c else f c)).sum =
      (cells.countP (fun c => decide (p c))) • a + (cells.map f).sum := by
  induction cells with
  | nil =>
    simp only [List.map_nil, List.sum_nil, List.countP_nil, zero_nsmul,
      add_zero]
  | cons c t ih =>
    by_cases hc : p c
    · rw [List.map_cons, List.sum_cons, if_pos hc, ih, List.map_cons,
        List.sum_cons, List.countP_cons, decide_eq_true hc,
        if_pos (by rfl), succ_nsmul]
      abel
    · rw [List.map_cons, List.sum_cons, if_neg hc, ih, List.map_cons,
        List.sum_cons, List.countP_cons, decide_eq_false hc,
        if_neg Bool.false_ne_true, add_zero]
      abel

theorem sum_filter_partition {α M : Type} [AddCommMonoid M] (l : List α)
    (base : α → Bool) (w : α → M) (cells : List (List String))
    (city : α → String)
    (h : ∀ x ∈ l, base x = true →
      cells.countP (fun cell => decide (city x ∈ cell)) = 1) :
    (cells.map (fun cell =>
      ((l.filter (fun x => decide (city x ∈ cell) && base x)).map w).sum)).sum
      = ((l.filter base).map w).sum := by
  induction l with
  | nil => simp
  | cons x t ih =>
    have hrec := ih (fun y hy => h y (List.mem_cons_of_mem _ hy))
    by_cases hbx : base x = true
    · have hmap : ∀ cell ∈ cells,
          (((x :: t).filter
            (fun y => decide (city y ∈ cell) && base y)).map w).sum =
          (if city x ∈ cell then
            w x + ((t.filter
              (fun y => decide (city y ∈ cell) && base y)).map w).sum
          else
            ((t.filter (fun y => decide (city y ∈ cell) && base y)).map
              w).sum) := by
        intro cell _
        rw [List.filter_cons]
        by_cases hcx : city x ∈ cell
        · rw [if_pos (by rw [decide_eq_true hcx, hbx]; rfl), if_pos hcx,
            List.map_cons, List.sum_cons]
        · rw [if_neg (by rw [decide_eq_false hcx, Bool.false_and]; exact
            Bool.false_ne_true), if_neg hcx]
      rw [List.map_congr_left hmap,
        sum_map_ite cells (fun cell => city x ∈ cell) (w x) _,
        h x (List.mem_cons_self x t) hbx, one_nsmul, hrec,
        List.filter_cons, if_pos hbx, List.map_cons, List.sum_cons]
    · have hfalse : base x = false := by
        simpa using hbx
      have hmap : ∀ cell ∈ cells,
          (((x :: t).filter
            (fun y => decide (city y ∈ cell) && base y)).map w).sum =
          ((t.filter (fun y => decide (city y ∈ cell) && base y)).map
            w).sum := by
        intro cell _
        rw [List.filter_cons,
          if_neg (by rw [hfalse, Bool.and_false]; exact Bool.false_ne_true)]
      rw [List.map_congr_left hmap, hrec, List.filter_cons, if_neg hbx]

theorem flatMap_pair_filter_length {α β : Type} (cl : List α)
    (f : α → List β) (base : α → Bool) (h : ∀ c ∈ cl, (f c).length = 1) :
    ((cl.flatMap (fun c => (f c).map (fun r => (c, r)))).filter
      (fun cr => base cr.1)).length = (cl.filter base).length := by
  induction cl with
  | nil => simp
  | cons c t ih =>
    rw [List.flatMap_cons, List.filter_append, List.length_append,
      ih (fun y hy => h y (List.mem_cons_of_mem _ hy)), List.filter_map]
    by_cases hbc : base c = true
    · rw [List.filter_cons, if_pos hbc]
      simp only [Function.comp_def, hbc, List.filter_true, List.length_map,
        List.length_cons]
      rw [h c (List.mem_cons_self c t)]
      omega
    · rw [List.filter_cons, if_neg hbc]
      simp [Function.comp_def, hbc]

theorem mem_joinClaimsReceivers {s : Store} {cr : Claim × Receiver}
    (h : cr ∈ joinClaimsReceivers s) :
    cr.1 ∈ s.claims ∧ cr.2 ∈ s.receivers := by
  unfold joinClaimsReceivers at h
  simp only [List.mem_flatMap, List.mem_map, List.mem_filter] at h
  obtain ⟨c, hc, r, ⟨hr, _⟩, rfl⟩ := h
  exact ⟨hc, hr⟩

theorem joinClaimsReceivers_filter_fst_length (s : Store)
    (base : Claim → Bool)
    (hfk : ∀ c ∈ s.claims,
      (s.receivers.filter
        (fun r => decide (r.Receiver_ID = c.Receiver_ID))).length = 1) :
    ((joinClaimsReceivers s).filter (fun cr => base cr.1)).length =
      (s.claims.filter base).length := by
  unfold joinClaimsReceivers
  exact flatMap_pair_filter_length s.claims _ base hfk

/-- C6: for every KPI and every partition of the city dimension into
non-empty, non-overlapping city sets covering the cities that occur (each
provider city, receiver city and food location lies in exactly one cell,
and claims resolve their receiver uniquely), the unfiltered KPI value
equals the sum of the per-cell filtered KPI values. -/
theorem C6_kpi_city_partition_additivity (s : Store)
    (cells : List (List String)) (ptypes ftypes mtypes cstats : List String)
    (hcells : ∀ cell ∈ cells, cell ≠ [])
    (hprov : ∀ p ∈ s.providers,
      cells.countP (fun cell => decide (p.City ∈ cell)) = 1)
    (hrecv : ∀ r ∈ s.receivers,
      cells.countP (fun cell => decide (r.City ∈ cell)) = 1)
    (hfood : ∀ f ∈ s.food_listings,
      cells.countP (fun cell => decide (f.Location ∈ cell)) = 1)
    (hfk : ∀ c ∈ s.claims,
      (s.receivers.filter
        (fun r => decide (r.Receiver_ID = c.Receiver_ID))).length = 1) :
    count_providers s [] ptypes =
      (cells.map (fun cell => count_providers s cell ptypes)).sum ∧
    count_receivers s [] =
      (cells.map (fun cell => count_receivers s cell)).sum ∧
    count_claims s [] cstats =
      (cells.map (fun cell => count_claims s cell cstats)).sum ∧
    total_food_quantity_filtered s [] ptypes ftypes mtypes =
      (cells.map (fun cell =>
        total_food_quantity_filtered s cell ptypes ftypes mtypes)).sum := by
  refine ⟨?_, ?_, ?_, ?_⟩
  · have e1 : count_providers s [] ptypes =
        ((s.providers.filter (fun p => dimSat ptypes p.«Type»)).map
          (fun _ => (1 : ℕ))).sum := by
      unfold count_providers
      have hp : ∀ p ∈ s.providers,
          (dimSat [] p.City && dimSat ptypes p.«Type») =
            dimSat ptypes p.«Type» :=
        fun p _ => by rw [dimSat_nil, Bool.true_and]
      rw [List.filter_congr hp]
      exact length_eq_sum_ones _
    have e2 : ∀ cell ∈ cells, count_providers s cell ptypes =
        ((s.providers.filter
          (fun p => decide (p.City ∈ cell) && dimSat ptypes p.«Type»)).map
          (fun _ => (1 : ℕ))).sum := by
      intro cell hc
      unfold count_providers
      have hp : ∀ p ∈ s.providers,
          (dimSat cell p.City && dimSat ptypes p.«Type») =
            (decide (p.City ∈ cell) && dimSat ptypes p.«Type») :=
        fun p _ => by rw [dimSat_of_ne_nil (hcells cell hc)]
      rw [List.filter_congr hp]
      exact length_eq_sum_ones _
    rw [e1, List.map_congr_left e2]
    exact (sum_filter_partition s.providers
      (fun p => dimSat ptypes p.«Type») (fun _ => (1 : ℕ)) cells
      (fun p => p.City) (fun p hp _ => hprov p hp)).symm
  · have e1 : count_receivers s [] =
        ((s.receivers.filter (fun _ => true)).map (fun _ => (1 : ℕ))).sum := by
      unfold count_receivers
      have hp : ∀ r ∈ s.receivers, dimSat [] r.City = true :=
        fun r _ => dimSat_nil r.City
      rw [List.filter_congr hp]
      exact length_eq_sum_ones _
    have e2 : ∀ cell ∈ cells, count_receivers s cell =
        ((s.receivers.filter
          (fun r => decide (r.City ∈ cell) && true)).map
          (fun _ => (1 : ℕ))).sum := by
      intro cell hc
      unfold count_receivers
      have hp : ∀ r ∈ s.receivers,
          dimSat cell r.City = (decide (r.City ∈ cell) && true) :=
        fun r _ => by rw [dimSat_of_ne_nil (hcells cell hc), Bool.and_true]
      rw [List.filter_congr hp]
      exact length_eq_sum_ones _
    rw [e1, List.map_congr_left e2]
    exact (sum_filter_partition s.receivers (fun _ => true)
      (fun _ => (1 : ℕ)) cells (fun r => r.City)
      (fun r hr _ => hrecv r hr)).symm
  · have e1 : count_claims s [] cstats =
        (s.claims.filter (fun c => dimSat cstats c.Status)).length := by
      unfold count_claims
      rw [if_pos rfl]
    have e2 : ∀ cell ∈ cells, count_claims s cell cstats =
        (((joinClaimsReceivers s).filter
          (fun cr => decide (cr.2.City ∈ cell) &&
            dimSat cstats cr.1.Status)).map (fun _ => (1 : ℕ))).sum := by
      intro cell hc
      unfold count_claims
      rw [if_neg (hcells cell hc)]
      exact length_eq_sum_ones _
    rw [e1, List.map_congr_left e2,
      sum_filter_partition (joinClaimsReceivers s)
        (fun cr => dimSat cstats cr.1.Status) (fun _ => (1 : ℕ)) cells
        (fun cr => cr.2.City)
        (fun cr hcr _ => hrecv cr.2 (mem_joinClaimsReceivers hcr).2),
      ← length_eq_sum_ones]
    exact (joinClaimsReceivers_filter_fst_length s
      (fun c => dimSat cstats c.Status) hfk).symm
  · have e1 : total_food_quantity_filtered s [] ptypes ftypes mtypes =
        ((s.food_listings.filter
          (fun f => dimSat ptypes f.Provider_Type &&
            (dimSat ftypes f.Food_Type && dimSat mtypes f.Meal_Type))).map
          (fun f => f.Quantity)).sum := by
      unfold total_food_quantity_filtered
      have hp : ∀ f ∈ s.food_listings,
          (dimSat [] f.Location && dimSat ptypes f.Provider_Type &&
            dimSat ftypes f.Food_Type && dimSat mtypes f.Meal_Type) =
          (dimSat ptypes f.Provider_Type &&
            (dimSat ftypes f.Food_Type && dimSat mtypes f.Meal_Type)) :=
        fun f _ => by
          rw [dimSat_nil, Bool.true_and, Bool.and_assoc]
      rw [List.filter_congr hp]
    have e2 : ∀ cell ∈ cells,
        total_food_quantity_filtered s cell ptypes ftypes mtypes =
        ((s.food_listings.filter
          (fun f => decide (f.Location ∈ cell) &&
            (dimSat ptypes f.Provider_Type &&
              (dimSat ftypes f.Food_Type &&
                dimSat mtypes f.Meal_Type)))).map
          (fun f => f.Quantity)).sum := by
      intro cell hc
      unfold total_food_quantity_filtered
      have hp : ∀ f ∈ s.food_listings,
          (dimSat cell f.Location && dimSat ptypes f.Provider_Type &&
            dimSat ftypes f.Food_Type && dimSat mtypes f.Meal_Type) =
          (decide (f.Location ∈ cell) &&
            (dimSat ptypes f.Provider_Type &&
              (dimSat ftypes f.Food_Type && dimSat mtypes f.Meal_Type))) :=
        fun f _ => by
          rw [dimSat_of_ne_nil (hcells cell hc), Bool.and_assoc,
            Bool.and_assoc]
      rw [List.filter_congr hp]
    rw [e1, List.map_congr_left e2]
    exact (sum_filter_partition s.food_listings
      (fun f => dimSat ptypes f.Provider_Type &&
        (dimSat ftypes f.Food_Type && dimSat mtypes f.Meal_Type))
      (fun f => f.Quantity) cells (fun f => f.Location)
      (fun f hf _ => hfood f hf)).symm

/-- C6, witnessed on a store with providers in Delhi/Pune, a Delhi
receiver with one claim, and Delhi/Pune food listings, partitioned by
`[["Delhi"], ["Pune"]]`: each unfiltered KPI equals the sum of the two
filtered calls. -/
theorem C6_kpi_city_partition_additivity_witness :
    count_providers
        (Store.mk
          [⟨1, "A", "Restaurant", "Delhi", "", ""⟩,
           ⟨2, "B", "Supermarket", "Pune", "", ""⟩,
           ⟨3, "C", "Restaurant", "Delhi", "", ""⟩]
          [⟨5, "R", "NGO", "Delhi", ""⟩]
          [⟨1, "Rice", 10, "2024-01-01", 1, "Restaurant", "Delhi",
            "Vegetarian", "Lunch"⟩,
           ⟨2, "Dal", 7, "2024-01-02", 2, "Supermarket", "Pune",
            "Vegan", "Dinner"⟩]
          [⟨1, 1, 5, "Pending", "t1"⟩])
        [] [] =
      ([["Delhi"], ["Pune"]].map (fun cell =>
        count_providers
          (Store.mk
            [⟨1, "A", "Restaurant", "Delhi", "", ""⟩,
             ⟨2, "B", "Supermarket", "Pune", "", ""⟩,
             ⟨3, "C", "Restaurant", "Delhi", "", ""⟩]
            [⟨5, "R", "NGO", "Delhi", ""⟩]
            [⟨1, "Rice", 10, "2024-01-01", 1, "Restaurant", "Delhi",
              "Vegetarian", "Lunch"⟩,
             ⟨2, "Dal", 7, "2024-01-02", 2, "Supermarket", "Pune",
              "Vegan", "Dinner"⟩]
            [⟨1, 1, 5, "Pending", "t1"⟩])
          cell [])).sum ∧
    count_claims
        (Store.mk
          [⟨1, "A", "Restaurant", "Delhi", "", ""⟩,
           ⟨2, "B", "Supermarket", "Pune", "", ""⟩,
           ⟨3, "C", "Restaurant", "Delhi", "", ""⟩]
          [⟨5, "R", "NGO", "Delhi", ""⟩]
          [⟨1, "Rice", 10, "2024-01-01", 1, "Restaurant", "Delhi",
            "Vegetarian", "Lunch"⟩,
           ⟨2, "Dal", 7, "2024-01-02", 2, "Supermarket", "Pune",
            "Vegan", "Dinner"⟩]
          [⟨1, 1, 5, "Pending", "t1"⟩])
        [] [] =
      ([["Delhi"], ["Pune"]].map (fun cell =>
        count_claims
          (Store.mk
            [⟨1, "A", "Restaurant", "Delhi", "", ""⟩,
             ⟨2, "B", "Supermarket", "Pune", "", ""⟩,
             ⟨3, "C", "Restaurant", "Delhi", "", ""⟩]
            [⟨5, "R", "NGO", "Delhi", ""⟩]
            [⟨1, "Rice", 10, "2024-01-01", 1, "Restaurant", "Delhi",
              "Vegetarian", "Lunch"⟩,
             ⟨2, "Dal", 7, "2024-01-02", 2, "Supermarket", "Pune",
              "Vegan", "Dinner"⟩]
            [⟨1, 1, 5, "Pending", "t1"⟩])
          cell [])).sum :=
  have h := C6_kpi_city_partition_additivity
    (Store.mk
      [⟨1, "A", "Restaurant", "Delhi", "", ""⟩,
       ⟨2, "B", "Supermarket", "Pune", "", ""⟩,
       ⟨3, "C", "Restaurant", "Delhi", "", ""⟩]
      [⟨5, "R", "NGO", "Delhi", ""⟩]
      [⟨1, "Rice", 10, "2024-01-01", 1, "Restaurant", "Delhi",
        "Vegetarian", "Lunch"⟩,
       ⟨2, "Dal", 7, "2024-01-02", 2, "Supermarket", "Pune",
        "Vegan", "Dinner"⟩]
      [⟨1, 1, 5, "Pending", "t1"⟩])
    [["Delhi"], ["Pune"]] [] [] [] []
    (by decide) (by decide) (by decide) (by decide) (by decide)
  ⟨h.1, h.2.2.1⟩

/-! ## Theorems on report monotonicity under city filters (C7, C8) -/

theorem mem_orderByValDesc {K V : Type} [LinearOrder V] {x : K × V}
    {l : List (K × V)} : x ∈ orderByValDesc l ↔ x ∈ l := by
  unfold orderByValDesc
  exact List.mem_mergeSort

theorem orderByValDesc_sorted {K V : Type} [LinearOrder V]
    (l : List (K × V)) :
    List.Pairwise (fun a b => b.2 ≤ a.2) (orderByValDesc l) := by
  have htrans : ∀ a b c : K × V, decide (b.2 ≤ a.2) = true →
      decide (c.2 ≤ b.2) = true → decide (c.2 ≤ a.2) = true :=
    fun _ _ _ hab hbc =>
      decide_eq_true (le_trans (of_decide_eq_true hbc) (of_decide_eq_true hab))
  have htotal : ∀ a b : K × V,
      (decide (b.2 ≤ a.2) || decide (a.2 ≤ b.2)) = true := by
    intro a b
    rcases le_total b.2 a.2 with h | h
    · rw [decide_eq_true h, Bool.true_or]
    · rw [decide_eq_true h, Bool.or_true]
  exact (@List.sorted_mergeSort (K × V) (fun a b => decide (b.2 ≤ a.2))
    htrans htotal l).imp (fun h => of_decide_eq_true h)

theorem filter_imp_subset {α : Type} (l : List α) {p q : α → Bool}
    (h : ∀ a, p a = true → q a = true) :
    ∀ x ∈ l.filter p, x ∈ l.filter q :=
  fun _ hx => (List.monotone_filter_right l h).subset hx

theorem groupAgg_key_subset {α K V V' : Type} [DecidableEq K]
    {rows1 rows2 : List α} (hsub : ∀ x ∈ rows1, x ∈ rows2) (key : α → K)
    (agg : List α → V) (agg' : List α → V') :
    ∀ kv ∈ groupAgg rows1 key agg,
      ∃ kv' ∈ groupAgg rows2 key agg', kv'.1 = kv.1 := by
  intro kv hkv
  unfold groupAgg at hkv ⊢
  obtain ⟨k, hk, hkvEq⟩ := List.mem_map.mp hkv
  obtain ⟨x, hx, hkey⟩ := List.mem_map.mp (List.mem_dedup.mp hk)
  subst hkvEq
  refine ⟨(k, agg' (rows2.filter (fun r => decide (key r = k)))), ?_, rfl⟩
  apply List.mem_map.mpr
  exact ⟨k, List.mem_dedup.mpr (hkey ▸ List.mem_map_of_mem key (hsub x hx)),
    rfl⟩

theorem sorted_groupAgg_key_subset {α K V : Type} [DecidableEq K]
    [LinearOrder V] {rows1 rows2 : List α}
    (hsub : ∀ x ∈ rows1, x ∈ rows2) (key : α → K) (agg : List α → V) :
    ∀ kv ∈ orderByValDesc (groupAgg rows1 key agg),
      ∃ kv' ∈ orderByValDesc (groupAgg rows2 key agg), kv'.1 = kv.1 := by
  intro kv hkv
  rw [mem_orderByValDesc] at hkv
  obtain ⟨kv', h1, h2⟩ := groupAgg_key_subset hsub key agg agg kv hkv
  exact ⟨kv', mem_orderByValDesc.mpr h1, h2⟩

theorem dimSat_pair_of_singleton {X Y v : String}
    (h : dimSat [X] v = true) : dimSat [X, Y] v = true := by
  rw [dimSat_of_ne_nil (List.cons_ne_nil X [])] at h
  rw [dimSat_of_ne_nil (List.cons_ne_nil X [Y])]
  have : v = X := by simpa using h
  simp [this]

theorem groupAgg_city_restrict {α : Type} (l : List α) (city : α → String)
    (other : α → Bool) (X Y : String) :
    ∀ row ∈ groupAgg (l.filter (fun x => dimSat [X] (city x) && other x))
        city List.length,
      row.1 = X ∧
      row ∈ groupAgg (l.filter (fun x => dimSat [X, Y] (city x) && other x))
        city List.length := by
  intro row hrow
  unfold groupAgg at hrow ⊢
  obtain ⟨k, hk, hrowEq⟩ := List.mem_map.mp hrow
  obtain ⟨x, hx, hkey⟩ := List.mem_map.mp (List.mem_dedup.mp hk)
  subst hrowEq
  have hx' := List.mem_filter.mp hx
  have hboth : dimSat [X] (city x) = true ∧ other x = true := by
    have h2 := hx'.2
    rw [Bool.and_eq_true] at h2
    exact h2
  have hcx : city x = X := by
    have hsat := hboth.1
    rw [dimSat_of_ne_nil (List.cons_ne_nil X [])] at hsat
    simpa using hsat
  have hkX : k = X := by rw [← hkey, hcx]
  refine ⟨hkX, ?_⟩
  have hx2 : x ∈ l.filter (fun x => dimSat [X, Y] (city x) && other x) := by
    apply List.mem_filter.mpr
    refine ⟨hx'.1, ?_⟩
    rw [Bool.and_eq_true]
    refine ⟨?_, hboth.2⟩
    rw [dimSat_of_ne_nil (List.cons_ne_nil X [Y]), hcx]
    simp
  apply List.mem_map.mpr
  refine ⟨k, List.mem_dedup.mpr (hkey ▸ List.mem_map_of_mem city hx2), ?_⟩
  have hlen : (l.filter (fun x => dimSat [X, Y] (city x) && other x)).filter
      (fun r => decide (city r = k)) =
      (l.filter (fun x => dimSat [X] (city x) && other x)).filter
      (fun r => decide (city r = k)) := by
    rw [List.filter_filter, List.filter_filter]
    apply List.filter_congr
    intro r _
    by_cases hcr : city r = k
    · rw [hcr, ← hkey, hcx]
      have d1 : dimSat [X, Y] X = true := by
        rw [dimSat_of_ne_nil (List.cons_ne_nil X [Y])]
        simp
      have d2 : dimSat [X] X = true := by
        rw [dimSat_of_ne_nil (List.cons_ne_nil X [])]
        simp
      rw [d1, d2]
    · rw [decide_eq_false hcr, Bool.false_and, Bool.false_and]
  exact congrArg (fun t => (k, t.length)) hlen

/-- C7: for every report, filtering by the city set `{X}` yields a result
that sits inside the result for `{X, Y}`: every row's grouping key
reappears there, and for the city-grouped reports the whole row reappears
in group `X` (keys there are exactly `X`).  `provider_contacts`, which has
no grouping, embeds row-for-row. -/
theorem C7_city_filter_subset (s : Store) (X Y : String)
    (ptypes ftypes mtypes cstats : List String) :
    (∀ row ∈ providers_per_city s [X] ptypes,
      row.1 = X ∧ row ∈ providers_per_city s [X, Y] ptypes) ∧
    (∀ row ∈ receivers_per_city s [X],
      row.1 = X ∧ row ∈ receivers_per_city s [X, Y]) ∧
    (∀ row ∈ top_provider_types s [X],
      ∃ row' ∈ top_provider_types s [X, Y], row'.1 = row.1) ∧
    (∀ row ∈ provider_contacts s [X], row ∈ provider_contacts s [X, Y]) ∧
    (∀ row ∈ top_receivers s [X] cstats,
      ∃ row' ∈ top_receivers s [X, Y] cstats, row'.1 = row.1) ∧
    (∀ row ∈ city_highest_listings s [X] ptypes ftypes mtypes,
      row.1 = X ∧
      row ∈ city_highest_listings s [X, Y] ptypes ftypes mtypes) ∧
    (∀ row ∈ common_food_types s [X],
      ∃ row' ∈ common_food_types s [X, Y], row'.1 = row.1) ∧
    (∀ row ∈ claims_per_food s [X] cstats,
      ∃ row' ∈ claims_per_food s [X, Y] cstats, row'.1 = row.1) ∧
    (∀ row ∈ top_providers_successful_claims s [X],
      ∃ row' ∈ top_providers_successful_claims s [X, Y],
        row'.1 = row.1) ∧
    (∀ row ∈ claim_status_distribution s [X],
      ∃ row' ∈ claim_status_distribution s [X, Y], row'.1 = row.1) ∧
    (∀ row ∈ avg_quantity_per_receiver s [X],
      ∃ row' ∈ avg_quantity_per_receiver s [X, Y], row'.1 = row.1) ∧
    (∀ row ∈ most_claimed_meal_type s [X],
      ∃ row' ∈ most_claimed_meal_type s [X, Y], row'.1 = row.1) ∧
    (∀ row ∈ total_quantity_per_provider s [X],
      ∃ row' ∈ total_quantity_per_provider s [X, Y], row'.1 = row.1) ∧
    (∀ row ∈ cities_with_most_claims s [X],
      row.1 = X ∧ row ∈ cities_with_most_claims s [X, Y]) := by
  have hXY : ∀ v, dimSat [X] v = true → dimSat [X, Y] v = true :=
    fun v h => dimSat_pair_of_singleton h
  have hmemXY : ∀ v : String, decide (v ∈ [X]) = true →
      decide (v ∈ [X, Y]) = true := by
    intro v h
    have : v = X := by simpa using of_decide_eq_true h
    exact decide_eq_true (by simp [this])
  refine ⟨?_, ?_, ?_, ?_, ?_, ?_, ?_, ?_, ?_, ?_, ?_, ?_, ?_, ?_⟩
  · intro row hrow
    exact groupAgg_city_restrict s.providers (fun p => p.City)
      (fun p => dimSat ptypes p.«Type») X Y row hrow
  · have e : ∀ S : List String,
        s.receivers.filter (fun r => dimSat S r.City) =
        s.receivers.filter (fun r => dimSat S r.City && true) :=
      fun S => List.filter_congr (fun r _ => (Bool.and_true _).symm)
    intro row hrow
    unfold receivers_per_city at hrow ⊢
    rw [e [X]] at hrow
    rw [e [X, Y]]
    exact groupAgg_city_restrict s.receivers (fun r => r.City)
      (fun _ => true) X Y row hrow
  · exact sorted_groupAgg_key_subset
      (filter_imp_subset s.providers (fun p h => hXY _ h))
      (fun p => p.«Type») List.length
  · intro row hrow
    unfold provider_contacts at hrow ⊢
    obtain ⟨p, hp, hEq⟩ := List.mem_map.mp hrow
    subst hEq
    exact List.mem_map_of_mem _
      (filter_imp_subset s.providers (fun q hq => hXY _ hq) p hp)
  · exact sorted_groupAgg_key_subset
      (filter_imp_subset (joinReceiversClaims s) (fun rc h => by
        rw [Bool.and_eq_true] at h ⊢
        exact ⟨hXY _ h.1, h.2⟩))
      (fun rc => (rc.1.Name, rc.1.City)) List.length
  · have e : ∀ S : List String,
        s.food_listings.filter (fun f => dimSat S f.Location &&
          dimSat ptypes f.Provider_Type && dimSat ftypes f.Food_Type &&
          dimSat mtypes f.Meal_Type) =
        s.food_listings.filter (fun f => dimSat S f.Location &&
          (dimSat ptypes f.Provider_Type && (dimSat ftypes f.Food_Type &&
            dimSat mtypes f.Meal_Type))) :=
      fun S => List.filter_congr
        (fun f _ => by rw [Bool.and_assoc, Bool.and_assoc])
    intro row hrow
    unfold city_highest_listings at hrow ⊢
    rw [mem_orderByValDesc] at hrow
    rw [e [X]] at hrow
    obtain ⟨h1, h2⟩ := groupAgg_city_restrict s.food_listings
      (fun f => f.Location) _ X Y row hrow
    refine ⟨h1, mem_orderByValDesc.mpr ?_⟩
    rw [e [X, Y]]
    exact h2
  · exact sorted_groupAgg_key_subset
      (filter_imp_subset s.food_listings (fun f h => hXY _ h))
      (fun f => f.Food_Type) List.length
  · exact sorted_groupAgg_key_subset
      (filter_imp_subset (joinFoodClaimsReceivers s) (fun x h => by
        rw [Bool.and_eq_true] at h ⊢
        exact ⟨hXY _ h.1, h.2⟩))
      (fun x => x.1.Food_Name) List.length
  · exact sorted_groupAgg_key_subset
      (filter_imp_subset (joinProvidersFoodClaims s) (fun x h => by
        rw [Bool.and_eq_true] at h ⊢
        exact ⟨h.1, hXY _ h.2⟩))
      (fun x => x.1.Name) List.length
  · intro row hrow
    unfold claim_status_distribution at hrow ⊢
    rw [if_neg (by simp)] at hrow
    rw [if_neg (by simp)]
    exact groupAgg_key_subset
      (filter_imp_subset (joinClaimsReceivers s)
        (fun cr h => hmemXY _ h))
      (fun cr => cr.1.Status) List.length List.length row hrow
  · exact sorted_groupAgg_key_subset
      (filter_imp_subset (joinReceiversClaimsFood s)
        (fun x h => hXY _ h))
      (fun x => x.1.Name)
      (fun rows => (rows.map (fun x => (x.2.2.Quantity : ℚ))).sum /
        rows.length)
  · exact sorted_groupAgg_key_subset
      (filter_imp_subset (joinFoodClaimsReceivers s) (fun x h => hXY _ h))
      (fun x => x.1.Meal_Type) List.length
  · exact sorted_groupAgg_key_subset
      (filter_imp_subset (joinProvidersFood s) (fun x h => hXY _ h))
      (fun x => x.1.Name)
      (fun rows => (rows.map (fun x => x.2.Quantity)).sum)
  · have e : ∀ S : List String,
        (joinReceiversClaims s).filter (fun rc => dimSat S rc.1.City) =
        (joinReceiversClaims s).filter
          (fun rc => dimSat S rc.1.City && true) :=
      fun S => List.filter_congr (fun rc _ => (Bool.and_true _).symm)
    intro row hrow
    unfold cities_with_most_claims at hrow ⊢
    rw [mem_orderByValDesc] at hrow
    rw [e [X]] at hrow
    obtain ⟨h1, h2⟩ := groupAgg_city_restrict (joinReceiversClaims s)
      (fun rc => rc.1.City) (fun _ => true) X Y row hrow
    refine ⟨h1, mem_orderByValDesc.mpr ?_⟩
    rw [e [X, Y]]
    exact h2

/-- C7, witnessed: on a two-city store, the Delhi row of
`providers_per_city` filtered by `{Delhi}` reappears in the result
filtered by `{Delhi, Pune}` as group Delhi. -/
theorem C7_city_filter_subset_witness :
    ("Delhi", 1) ∈ providers_per_city
      (Store.mk
        [⟨1, "A", "Restaurant", "Delhi", "", ""⟩,
         ⟨2, "B", "Supermarket", "Pune", "", ""⟩] [] [] [])
      ["Delhi"] [] ∧
    (("Delhi", 1) : String × Nat).1 = "Delhi" ∧
    ("Delhi", 1) ∈ providers_per_city
      (Store.mk
        [⟨1, "A", "Restaurant", "Delhi", "", ""⟩,
         ⟨2, "B", "Supermarket", "Pune", "", ""⟩] [] [] [])
      ["Delhi", "Pune"] [] :=
  have hmem : ("Delhi", 1) ∈ providers_per_city
      (Store.mk
        [⟨1, "A", "Restaurant", "Delhi", "", ""⟩,
         ⟨2, "B", "Supermarket", "Pune", "", ""⟩] [] [] [])
      ["Delhi"] [] := by decide
  have h := (C7_city_filter_subset
    (Store.mk
      [⟨1, "A", "Restaurant", "Delhi", "", ""⟩,
       ⟨2, "B", "Supermarket", "Pune", "", ""⟩] [] [] [])
    "Delhi" "Pune" [] [] [] []).1 ("Delhi", 1) hmem
  ⟨hmem, h.1, h.2⟩

/-- C8: every row of "top providers by successful claims" counts, for its
provider name, exactly the join rows whose claim status is `Completed`
and whose provider city passes the filter (the `Completed` pre-filter
applies even with no city filter); the rows are ordered by that count
descending; and the result never reads the receivers table, i.e. the city
filter is bound to the provider's city, not the receiver's. -/
theorem C8_top_providers_successful (s : Store) (cities : List String) :
    (∀ row ∈ top_providers_successful_claims s cities,
      row.2 = (joinProvidersFoodClaims s).countP
        (fun x => decide (x.1.Name = row.1 ∧ x.2.2.Status = "Completed" ∧
          (cities = [] ∨ x.1.City ∈ cities)))) ∧
    List.Pairwise (fun a b => b.2 ≤ a.2)
      (top_providers_successful_claims s cities) ∧
    (∀ rs : List Receiver,
      top_providers_successful_claims { s with receivers := rs } cities =
        top_providers_successful_claims s cities) := by
  refine ⟨?_, ?_, fun rs => rfl⟩
  · intro row hrow
    unfold top_providers_successful_claims at hrow
    rw [mem_orderByValDesc] at hrow
    unfold groupAgg at hrow
    obtain ⟨k, hk, hrowEq⟩ := List.mem_map.mp hrow
    subst hrowEq
    show (((joinProvidersFoodClaims s).filter
        (fun x => decide (x.2.2.Status = "Completed") &&
          dimSat cities x.1.City)).filter
        (fun x => decide (x.1.Name = k))).length = _
    rw [List.filter_filter, List.countP_eq_length_filter]
    congr 1
    apply List.filter_congr
    intro x _
    simp only [dimSat, Bool.decide_and, Bool.decide_or]
  · unfold top_providers_successful_claims
    exact orderByValDesc_sorted _

/-- C8, witnessed: a Delhi provider with one `Completed` and one
`Pending` claim is reported with count `1` (only the completed claim),
the singleton result is trivially sorted, and replacing the receivers
table with an arbitrary other table leaves the result unchanged. -/
theorem C8_top_providers_successful_witness :
    (((1 : ℕ) : ℕ) = (joinProvidersFoodClaims
      (Store.mk [⟨1, "A", "Restaurant", "Delhi", "", ""⟩]
        [⟨5, "R", "NGO", "Pune", ""⟩]
        [⟨1, "Rice", 10, "2024-01-01", 1, "Restaurant", "Delhi",
          "Vegetarian", "Lunch"⟩]
        [⟨1, 1, 5, "Completed", "t1"⟩, ⟨2, 1, 5, "Pending", "t2"⟩])).countP
        (fun x => decide (x.1.Name = "A" ∧ x.2.2.Status = "Completed" ∧
          (([] : List String) = [] ∨ x.1.City ∈ ([] : List String))))) ∧
    top_providers_successful_claims
      (Store.mk [⟨1, "A", "Restaurant", "Delhi", "", ""⟩]
        []
        [⟨1, "Rice", 10, "2024-01-01", 1, "Restaurant", "Delhi",
          "Vegetarian", "Lunch"⟩]
        [⟨1, 1, 5, "Completed", "t1"⟩, ⟨2, 1, 5, "Pending", "t2"⟩]) [] =
    top_providers_successful_claims
      (Store.mk [⟨1, "A", "Restaurant", "Delhi", "", ""⟩]
        [⟨5, "R", "NGO", "Pune", ""⟩]
        [⟨1, "Rice", 10, "2024-01-01", 1, "Restaurant", "Delhi",
          "Vegetarian", "Lunch"⟩]
        [⟨1, 1, 5, "Completed", "t1"⟩, ⟨2, 1, 5, "Pending", "t2"⟩]) [] :=
  have hrow : ("A", (1 : ℕ)) ∈ top_providers_successful_claims
      (Store.mk [⟨1, "A", "Restaurant", "Delhi", "", ""⟩]
        [⟨5, "R", "NGO", "Pune", ""⟩]
        [⟨1, "Rice", 10, "2024-01-01", 1, "Restaurant", "Delhi",
          "Vegetarian", "Lunch"⟩]
        [⟨1, 1, 5, "Completed", "t1"⟩, ⟨2, 1, 5, "Pending", "t2"⟩]) [] := by
    unfold top_providers_successful_claims
    rw [mem_orderByValDesc]
    decide
  have h := C8_top_providers_successful
    (Store.mk [⟨1, "A", "Restaurant", "Delhi", "", ""⟩]
      [⟨5, "R", "NGO", "Pune", ""⟩]
      [⟨1, "Rice", 10, "2024-01-01", 1, "Restaurant", "Delhi",
        "Vegetarian", "Lunch"⟩]
      [⟨1, 1, 5, "Completed", "t1"⟩, ⟨2, 1, 5, "Pending", "t2"⟩]) []
  ⟨h.1 ("A", 1) hrow, h.2.2 []⟩

/-- C10, witnessed on a two-claim table: updating claim `1` to
`Completed` sets exactly its status, leaves claim `2`'s row untouched,
and preserves claim `1`'s `Food_ID`. -/
theorem C10_claim_update_frame_witness :
    ((updateClaimStatus
        (Store.mk [] [] []
          [⟨1, 1, 5, "Pending", "t1"⟩, ⟨2, 1, 5, "Pending", "t2"⟩])
        1 "Completed").claims.getD 0 default).Status = "Completed" ∧
    (updateClaimStatus
        (Store.mk [] [] []
          [⟨1, 1, 5, "Pending", "t1"⟩, ⟨2, 1, 5, "Pending", "t2"⟩])
        1 "Completed").claims.getD 1 default =
      (Store.mk [] [] []
        [⟨1, 1, 5, "Pending", "t1"⟩,
         ⟨2, 1, 5, "Pending", "t2"⟩]).claims.getD 1 default ∧
    ((updateClaimStatus
        (Store.mk [] [] []
          [⟨1, 1, 5, "Pending", "t1"⟩, ⟨2, 1, 5, "Pending", "t2"⟩])
        1 "Completed").claims.getD 0 default).Food_ID =
      ((Store.mk [] [] []
        [⟨1, 1, 5, "Pending", "t1"⟩,
         ⟨2, 1, 5, "Pending", "t2"⟩]).claims.getD 0 default).Food_ID :=
  have h := C10_claim_update_frame
    (Store.mk [] [] []
      [⟨1, 1, 5, "Pending", "t1"⟩, ⟨2, 1, 5, "Pending", "t2"⟩])
    1 "Completed"
  ⟨(h.2.2.2.2 0).2.2.2.2.2 (by decide) (by decide),
   (h.2.2.2.2 1).2.2.2.2.1 (by decide),
   (h.2.2.2.2 0).2.1⟩

end FoodWaste
